import Mathlib

/-!
Verification of the CommandCenter repository (Piper Command Center firmware).

The development shallowly embeds the Python sources:

* `piper_command_center.py` — the axis signal conditioner
  (`PiperJoystickAxis`), the button groups (`PiperJoystickZ`, `PiperDpad`,
  `PiperMineCraftButtons`);
* `piper_command_center_modes.py` — the mode state machine
  (`PiperCommandCenter.process`) of the extended (Minecraft-capable) variant.

Real numbers of the Python code are embedded as exact rationals (`ℚ`);
`int()` truncation toward zero is `truncQ`.  Stateful code is explicit
state passing: `PCCState` carries every mutable attribute of the
`PiperCommandCenter` object together with the HID sink state (the set of
currently pressed keycodes / mouse buttons and the log of HID calls made
during the last tick).  Debounced buttons follow the debouncer semantics
used by the source (`pressed = not value`, `pressedEvent = fell`,
`releasedEvent = rose`): each tick supplies the current debounced level and
an edge fires exactly when the level differs from the previous tick's
level.  (The separate `PiperMineCraftButtons` section below embeds the
actual attribute lookups of that class, which fail; the state-machine model
uses the documented button semantics so the state-machine logic itself can
be examined.)
-/

namespace CommandCenter

/-! ## Axis signal conditioning (`PiperJoystickAxis`) -/

/-- `_Cubic` from `piper_command_center.py` (line 114):
`weight * x ** 3 + (1.0 - weight) * x`. -/
def cubicFn (weight x : ℚ) : ℚ := weight * x ^ 3 + (1 - weight) * x

/-- The attributes stored by `PiperJoystickAxis.__init__` (the analog pin
handle is an external capability and carries no conditioning state). -/
structure PiperJoystickAxis where
  outputScale : ℚ
  deadbandCutoff : ℚ
  weight : ℚ
  alpha : ℚ
  deriving DecidableEq, Repr

/-- `PiperJoystickAxis.__init__`: stores the configuration and computes
`alpha = self._Cubic(self.deadbandCutoff)` once.  The source performs no
validation of any argument. -/
def axisInit (outputScale deadbandCutoff weight : ℚ) : PiperJoystickAxis :=
  { outputScale := outputScale
    deadbandCutoff := deadbandCutoff
    weight := weight
    alpha := cubicFn weight deadbandCutoff }

/-- Python `math.copysign(1, x)` for rational `x` (our rationals have no
negative zero, so the sign of `0` is `+1`, as for Python's `0.0`). -/
def copysignOne (x : ℚ) : ℚ := if x < 0 then -1 else 1

/-- `_cubicScaledDeadband` (lines 120–124), with Python division embedded as
rational division (total; the division-by-zero behaviour is modelled
separately by `cubicScaledDeadbandChecked`). -/
def cubicScaledDeadband (a : PiperJoystickAxis) (x : ℚ) : ℚ :=
  if |x| < a.deadbandCutoff then 0
  else (cubicFn a.weight x - copysignOne x * a.alpha) / (1 - a.alpha)

/-- `_cubicScaledDeadband` with Python's `ZeroDivisionError` made explicit:
the division `/ (1.0 - self.alpha)` raises exactly when `alpha = 1`. -/
def cubicScaledDeadbandChecked (a : PiperJoystickAxis) (x : ℚ) :
    Except String ℚ :=
  if |x| < a.deadbandCutoff then .ok 0
  else if a.alpha = 1 then .error "ZeroDivisionError"
  else .ok ((cubicFn a.weight x - copysignOne x * a.alpha) / (1 - a.alpha))

/-- Python `int()` on a real value: truncation toward zero. -/
def truncQ (q : ℚ) : ℤ := if 0 ≤ q then ⌊q⌋ else ⌈q⌉

/-- `readJoystickAxis` (lines 132–133):
`int(self._cubicScaledDeadband((self.pin.value / 2**15) - 1) * self.outputScale)`,
with the raw 16-bit sample `self.pin.value` passed as the argument. -/
def readJoystickAxis (a : PiperJoystickAxis) (sample : ℕ) : ℤ :=
  truncQ (cubicScaledDeadband a ((sample : ℚ) / 2 ^ 15 - 1) * a.outputScale)

/-- `readJoystickAxis` with the possible `ZeroDivisionError` made explicit. -/
def readJoystickAxisChecked (a : PiperJoystickAxis) (sample : ℕ) :
    Except String ℤ :=
  (cubicScaledDeadbandChecked a ((sample : ℚ) / 2 ^ 15 - 1)).map
    (fun v => truncQ (v * a.outputScale))

/-- Modelled from the spec's words for claim C3 (refinement target, §4.1 of
the spec): `u = s/2^15 - 1`; `cubic(x) = weight*x^3 + (1-weight)*x`;
`alpha = cubic(deadbandCutoff)`; if `|u| < deadbandCutoff` the result is 0,
otherwise `(cubic(u) - sign(u)*alpha)/(1 - alpha)` multiplied by
`outputScale` and truncated toward zero. -/
def conditionSpec (outputScale deadbandCutoff weight : ℚ) (s : ℕ) : ℤ :=
  let u : ℚ := (s : ℚ) / 2 ^ 15 - 1
  let alpha := cubicFn weight deadbandCutoff
  let sign : ℚ := if u > 0 then 1 else if u < 0 then -1 else 0
  if |u| < deadbandCutoff then 0
  else truncQ ((cubicFn weight u - sign * alpha) / (1 - alpha) * outputScale)

/-! ### Axis helper lemmas -/

theorem truncQ_neg (q : ℚ) : truncQ (-q) = -truncQ q := by
  unfold truncQ
  rcases lt_trichotomy q 0 with h | h | h
  · rw [if_neg (not_le.mpr h), if_pos (by linarith), Int.floor_neg]
  · simp [h]
  · rw [if_pos h.le, if_neg (by simpa using not_le.mpr (neg_neg_iff_pos.mpr h)),
      Int.ceil_neg]

theorem cubicFn_neg (w x : ℚ) : cubicFn w (-x) = -cubicFn w x := by
  unfold cubicFn; ring

theorem copysignOne_neg {x : ℚ} (hx : x ≠ 0) :
    copysignOne (-x) = -copysignOne x := by
  unfold copysignOne
  rcases hx.lt_or_lt with h | h
  · rw [if_neg (by linarith), if_pos h]; norm_num
  · rw [if_pos (by linarith), if_neg (by linarith)]

theorem cubicScaledDeadband_neg (a : PiperJoystickAxis)
    (hc : 0 < a.deadbandCutoff) (x : ℚ) :
    cubicScaledDeadband a (-x) = -cubicScaledDeadband a x := by
  unfold cubicScaledDeadband
  rcases eq_or_ne x 0 with rfl | hx
  · simp [abs_of_nonneg, hc]
  · rw [abs_neg]
    by_cases h : |x| < a.deadbandCutoff
    · simp [h]
    · rw [if_neg h, if_neg h, cubicFn_neg, copysignOne_neg hx]
      ring

/-- For a valid configuration (`0 < deadbandCutoff < 1`, `0 ≤ weight ≤ 1`)
the derived constant `alpha` is strictly below 1, so the continuity
correction never divides by zero. -/
theorem alpha_lt_one {c w : ℚ} (hc0 : 0 < c) (hc1 : c < 1)
    (hw0 : 0 ≤ w) (hw1 : w ≤ 1) : cubicFn w c < 1 := by
  unfold cubicFn
  have hcsq : (0 : ℚ) ≤ 1 - c ^ 2 := by nlinarith
  nlinarith [mul_nonneg hw0 (mul_nonneg hc0.le hcsq)]

theorem checked_ok_of_alpha_ne (a : PiperJoystickAxis) (x : ℚ)
    (h : a.alpha ≠ 1) :
    cubicScaledDeadbandChecked a x = .ok (cubicScaledDeadband a x) := by
  unfold cubicScaledDeadbandChecked cubicScaledDeadband
  by_cases hx : |x| < a.deadbandCutoff
  · simp [hx]
  · simp [hx, h]

/-! ### Axis claims -/

/-- C3: the axis conditioning function is, for every raw 16-bit sample `s`
in `[0, 65535]` and every valid configuration: with `u = s/2^15 - 1`,
`cubic(x) = weight*x^3 + (1-weight)*x` and `alpha = cubic(deadbandCutoff)`,
if `|u| < deadbandCutoff` the result is 0, otherwise it is
`(cubic(u) - sign(u)*alpha)/(1 - alpha)` multiplied by `outputScale` and
truncated toward zero (and no division-by-zero occurs). -/
theorem axis_condition_matches_spec (scale c w : ℚ) (s : ℕ)
    (hc0 : 0 < c) (hc1 : c < 1) (hw0 : 0 ≤ w) (hw1 : w ≤ 1)
    (_hs : s ≤ 65535) :
    readJoystickAxisChecked (axisInit scale c w) s =
      .ok (conditionSpec scale c w s) := by
  have halpha : (axisInit scale c w).alpha ≠ 1 :=
    ne_of_lt (alpha_lt_one hc0 hc1 hw0 hw1)
  rw [readJoystickAxisChecked, checked_ok_of_alpha_ne _ _ halpha]
  unfold conditionSpec cubicScaledDeadband copysignOne axisInit
  simp only [Except.map]
  by_cases h : |(s : ℚ) / 2 ^ 15 - 1| < c
  · simp [h, truncQ]
  · have hune : (s : ℚ) / 2 ^ 15 - 1 ≠ 0 := by
      intro h0
      rw [h0] at h
      simp only [abs_zero, not_lt] at h
      exact absurd (lt_of_lt_of_le hc0 h) (lt_irrefl 0)
    rcases hune.lt_or_lt with hlt | hgt
    · simp [h, hlt, not_lt.mpr hlt.le, hlt.not_lt]
    · simp [h, hgt, not_lt.mpr hgt.le]

theorem axis_condition_matches_spec_witness :
    readJoystickAxisChecked (axisInit 20 (1/10) (1/5)) 40000 =
      .ok (conditionSpec 20 (1/10) (1/5) 40000) :=
  axis_condition_matches_spec 20 (1/10) (1/5) 40000 (by norm_num)
    (by norm_num) (by norm_num) (by norm_num) (by norm_num)

/-- C9: the conditioned axis output is odd-symmetric about the center
sample 32768 up to integer truncation: for every `d ≤ 32767` and every
valid configuration, `condition(32768+d) = -condition(32768-d)`. -/
theorem axis_condition_odd (a : PiperJoystickAxis) (d : ℕ)
    (hc : 0 < a.deadbandCutoff) (hd : d ≤ 32767) :
    readJoystickAxis a (32768 + d) = -readJoystickAxis a (32768 - d) := by
  unfold readJoystickAxis
  have h1 : ((32768 + d : ℕ) : ℚ) / 2 ^ 15 - 1 = (d : ℚ) / 2 ^ 15 := by
    push_cast; ring
  have h2 : ((32768 - d : ℕ) : ℚ) / 2 ^ 15 - 1 = -((d : ℚ) / 2 ^ 15) := by
    rw [Nat.cast_sub (by omega)]
    push_cast; ring
  rw [h1, h2, cubicScaledDeadband_neg a hc, neg_mul, truncQ_neg, neg_neg]

theorem axis_condition_odd_witness :
    readJoystickAxis (axisInit 20 (1/10) (1/5)) (32768 + 10000) =
      -readJoystickAxis (axisInit 20 (1/10) (1/5)) (32768 - 10000) :=
  axis_condition_odd (axisInit 20 (1/10) (1/5)) 10000 (by norm_num [axisInit])
    (by norm_num)

/-- C7 counterexample: constructing an axis with `deadbandCutoff = 1` does
NOT fail at construction — `__init__` performs no validation and yields a
configuration with `alpha = 1` — and the per-tick conditioner then fails at
runtime (`ZeroDivisionError`) on raw sample 0, refuting "fails fast at
construction time ... no per-tick operation can fail at runtime". -/
theorem axis_no_failfast_counterexample :
    axisInit 20 1 (1/5) =
      { outputScale := 20, deadbandCutoff := 1, weight := 1/5, alpha := 1 } ∧
    readJoystickAxisChecked (axisInit 20 1 (1/5)) 0 =
      .error "ZeroDivisionError" := by
  constructor
  · unfold axisInit cubicFn
    norm_num
  · norm_num [readJoystickAxisChecked, cubicScaledDeadbandChecked, axisInit,
      cubicFn, Except.map]

/-- C7 amended: construction never fails (the constructor performs no
validation, even for `deadbandCutoff ≥ 1`; the invalid value surfaces as a
runtime division-by-zero instead); for every valid configuration
(`0 < deadbandCutoff < 1`, `0 ≤ weight ≤ 1`), no per-tick operation of the
conditioner fails at runtime. -/
theorem axis_valid_config_never_fails (scale c w : ℚ) (s : ℕ)
    (hc0 : 0 < c) (hc1 : c < 1) (hw0 : 0 ≤ w) (hw1 : w ≤ 1) :
    (readJoystickAxisChecked (axisInit scale c w) s).isOk = true := by
  have halpha : (axisInit scale c w).alpha ≠ 1 :=
    ne_of_lt (alpha_lt_one hc0 hc1 hw0 hw1)
  rw [readJoystickAxisChecked, checked_ok_of_alpha_ne _ _ halpha]
  rfl

theorem axis_valid_config_never_fails_witness :
    (readJoystickAxisChecked (axisInit 20 (1/10) (1/5)) 0).isOk = true :=
  axis_valid_config_never_fails 20 (1/10) (1/5) 0 (by norm_num) (by norm_num)
    (by norm_num) (by norm_num)

/-! ## HID model

The HID sink (`adafruit_hid` `Keyboard`/`Mouse`) is modelled by the set of
currently pressed keycodes / mouse buttons plus a per-tick log of the
press/release/move calls issued.  `press` adds to the set (idempotently, as
in the HID report), `release` removes; both always log the call. -/

/-- The keycodes this program uses (`adafruit_hid.keycode.Keycode`). -/
inductive Keycode
  | upArrow | downArrow | leftArrow | rightArrow
  | space | x | z | c
  | a | control | d | e | escape | f5 | leftShift | q | s | w
  deriving DecidableEq, Repr

inductive MouseButton
  | left | middle | right
  deriving DecidableEq, Repr

inductive HidEvent
  | keyPress (k : Keycode)
  | keyRelease (k : Keycode)
  | mousePress (b : MouseButton)
  | mouseRelease (b : MouseButton)
  | mouseMove (dx dy wheel : ℤ)
  deriving DecidableEq, Repr

/-- The states of `piper_command_center_modes.py` (`_UNWIRED` … `_MWAITING`,
lines 90–98). -/
inductive MState
  | unwired | waiting | joystick | jwaiting | keyboard
  | kwaitingToJ | kwaitingToMC | minecraft | mwaiting
  deriving DecidableEq, Repr

/-- Minecraft sub-modes (`_MC_DEFAULT` … `_MC_UTILITY`, lines 102–106). -/
inductive MCMode
  | mcDefault | flyingdown | sprinting | crouching | utility
  deriving DecidableEq, Repr

/-- `_MC_JOYSTICK_Z` (line 110): keycode for a joystick button press,
indexed by the Minecraft sub-mode. -/
def mcJoystickZ : MCMode → Keycode
  | .mcDefault => .space
  | .flyingdown => .leftShift
  | .sprinting => .space
  | .crouching => .space
  | .utility => .f5

/-- One polling tick's inputs: the monotonic clock, the two conditioned
axis deltas, and the current debounced *pressed* level of each button
(source: `zPressed()` = `not debouncer.value`, and similarly for the DPad
and Minecraft buttons).  Edge queries (`fell`/`rose`) are computed against
the previous tick's level, which the machine state carries. -/
structure Input where
  now : ℚ
  dx : ℤ
  dy : ℤ
  z : Bool
  dpadL : Bool
  dpadR : Bool
  dpadU : Bool
  dpadD : Bool
  mcTop : Bool
  mcMiddle : Bool
  mcBottom : Bool
  deriving DecidableEq, Repr

/-- The mutable attributes of `PiperCommandCenter` (modes variant,
`__init__` lines 132–148) together with the HID sink state and the
previous-tick debounced button levels. -/
structure PCCState where
  state : MState
  timer : ℚ
  lastMouse : ℚ
  lastMouseWheel : ℚ
  upPressed : Bool
  downPressed : Bool
  leftPressed : Bool
  rightPressed : Bool
  mcMode : MCMode
  mcFlyingdownReq : Bool
  mcSprintingReq : Bool
  mcCrouchingReq : Bool
  mcUtilityReq : Bool
  kbd : List Keycode
  mouseBtns : List MouseButton
  prevZ : Bool
  prevDpadL : Bool
  prevDpadR : Bool
  prevDpadU : Bool
  prevDpadD : Bool
  prevMcTop : Bool
  prevMcMiddle : Bool
  prevMcBottom : Bool
  tickEvents : List HidEvent
  deriving DecidableEq, Repr

def pressKey (st : PCCState) (k : Keycode) : PCCState :=
  { st with kbd := if k ∈ st.kbd then st.kbd else k :: st.kbd,
            tickEvents := st.tickEvents ++ [.keyPress k] }

def releaseKey (st : PCCState) (k : Keycode) : PCCState :=
  { st with kbd := st.kbd.filter (fun k' => k' ≠ k),
            tickEvents := st.tickEvents ++ [.keyRelease k] }

def pressMouse (st : PCCState) (b : MouseButton) : PCCState :=
  { st with mouseBtns := if b ∈ st.mouseBtns then st.mouseBtns else b :: st.mouseBtns,
            tickEvents := st.tickEvents ++ [.mousePress b] }

def releaseMouse (st : PCCState) (b : MouseButton) : PCCState :=
  { st with mouseBtns := st.mouseBtns.filter (fun b' => b' ≠ b),
            tickEvents := st.tickEvents ++ [.mouseRelease b] }

def moveMouse (st : PCCState) (dx dy wheel : ℤ) : PCCState :=
  { st with tickEvents := st.tickEvents ++ [.mouseMove dx dy wheel] }

/-- Debouncer `fell` this tick: the pressed level went `false → true`. -/
def pressedEvt (prev cur : Bool) : Bool := cur && !prev

/-- Debouncer `rose` this tick: the pressed level went `true → false`. -/
def releasedEvt (prev cur : Bool) : Bool := !cur && prev

/-- `releaseJoystickHID` (lines 158–160). -/
def releaseJoystickHID (st : PCCState) : PCCState :=
  releaseMouse (releaseMouse st .left) .right

/-- `releaseKeyboardHID` (lines 162–170). -/
def releaseKeyboardHID (st : PCCState) : PCCState :=
  releaseKey (releaseKey (releaseKey (releaseKey (releaseKey (releaseKey
    (releaseKey (releaseKey st .upArrow) .downArrow) .leftArrow) .rightArrow)
    .space) .x) .z) .c

/-- `releaseMinecraftHID` (lines 172–187). -/
def releaseMinecraftHID (st : PCCState) : PCCState :=
  let st := releaseMouse (releaseMouse (releaseMouse st .left) .middle) .right
  releaseKey (releaseKey (releaseKey (releaseKey (releaseKey (releaseKey
    (releaseKey (releaseKey (releaseKey (releaseKey (releaseKey st
    .a) .control) .d) .e) .escape) .f5) .leftShift) .q) .s) .space) .w

/-- The "Command Center State Machine" block of `process` (lines 202–277).
The dotstar LED writes are omitted (display only). -/
def stateMachine (st : PCCState) (i : Input) : PCCState :=
  match st.state with
  | .unwired =>
      if i.dx = 0 ∧ i.dy = 0 then { st with state := .waiting, timer := i.now }
      else st
  | .waiting =>
      if i.dx ≠ 0 ∨ i.dy ≠ 0 then { st with state := .unwired }
      else if i.now - st.timer > 1/2 then { st with state := .joystick }
      else st
  | .joystick =>
      if i.z then { st with timer := i.now, state := .jwaiting } else st
  | .jwaiting =>
      if !i.z then { st with state := .joystick }
      else if i.now - st.timer > 1 then
        releaseJoystickHID { st with state := .keyboard }
      else st
  | .keyboard =>
      if i.z && !i.mcBottom then { st with timer := i.now, state := .kwaitingToJ }
      else if i.z && i.mcBottom then { st with timer := i.now, state := .kwaitingToMC }
      else st
  | .kwaitingToJ =>
      if !i.z || i.mcBottom then
        { st with state := .keyboard, upPressed := false, downPressed := false,
                  leftPressed := false, rightPressed := false }
      else if i.now - st.timer > 1 then
        releaseKeyboardHID { st with state := .joystick }
      else st
  | .kwaitingToMC =>
      if !i.z || !i.mcBottom then
        { st with state := .keyboard, upPressed := false, downPressed := false,
                  leftPressed := false, rightPressed := false }
      else if i.now - st.timer > 1 then
        releaseKeyboardHID { st with state := .minecraft }
      else st
  | .minecraft =>
      if i.z && i.dpadU && i.dpadD && i.dpadL && i.dpadR then
        { st with timer := i.now, state := .mwaiting }
      else st
  | .mwaiting =>
      if !i.z || !i.dpadU || !i.dpadD || !i.dpadL || !i.dpadR then
        { st with state := .minecraft }
      else if i.now - st.timer > 1 then
        releaseMinecraftHID { st with state := .joystick }
      else st

/-! The "Command Center Joystick Handling" block (lines 281–310), split
into the sequential statements of the source. -/

def jsMouseMove (i : Input) (st : PCCState) : PCCState :=
  if i.now - st.lastMouse > 1/200 then
    moveMouse { st with lastMouse := i.now } i.dx i.dy 0
  else st

def jsWheel (i : Input) (st : PCCState) : PCCState :=
  let dwheel : ℤ := if i.dpadU then -1 else if i.dpadD then 1 else 0
  if i.now - st.lastMouseWheel > 1/10 then
    moveMouse { st with lastMouseWheel := i.now } 0 0 dwheel
  else st

def jsLeftButton (i : Input) (st : PCCState) : PCCState :=
  if pressedEvt st.prevDpadL i.dpadL then pressMouse st .left
  else if releasedEvt st.prevDpadL i.dpadL then releaseMouse st .left
  else st

def jsRightButton (i : Input) (st : PCCState) : PCCState :=
  if pressedEvt st.prevDpadR i.dpadR then pressMouse st .right
  else if releasedEvt st.prevDpadR i.dpadR then releaseMouse st .right
  else st

def joystickSection (i : Input) (st : PCCState) : PCCState :=
  if st.state = .joystick ∨ st.state = .jwaiting then
    jsRightButton i (jsLeftButton i (jsWheel i (jsMouseMove i st)))
  else st

/-! The "Command Center Keyboard Handling" block (lines 314–377). -/

def kbSpace (i : Input) (st : PCCState) : PCCState :=
  if pressedEvt st.prevDpadU i.dpadU then pressKey st .space
  else if releasedEvt st.prevDpadU i.dpadU then releaseKey st .space
  else st

def kbX (i : Input) (st : PCCState) : PCCState :=
  if pressedEvt st.prevDpadD i.dpadD then pressKey st .x
  else if releasedEvt st.prevDpadD i.dpadD then releaseKey st .x
  else st

def kbZ (i : Input) (st : PCCState) : PCCState :=
  if pressedEvt st.prevDpadL i.dpadL then pressKey st .z
  else if releasedEvt st.prevDpadL i.dpadL then releaseKey st .z
  else st

def kbC (i : Input) (st : PCCState) : PCCState :=
  if pressedEvt st.prevDpadR i.dpadR then pressKey st .c
  else if releasedEvt st.prevDpadR i.dpadR then releaseKey st .c
  else st

/-- The dx latch logic (lines 335–355). -/
def kbLatchX (i : Input) (st : PCCState) : PCCState :=
  if i.dx = 0 then
    let st := if st.leftPressed then releaseKey { st with leftPressed := false } .leftArrow else st
    if st.rightPressed then releaseKey { st with rightPressed := false } .rightArrow else st
  else if i.dx > 0 then
    let st := if st.leftPressed then releaseKey { st with leftPressed := false } .leftArrow else st
    if !st.rightPressed then pressKey { st with rightPressed := true } .rightArrow else st
  else
    let st := if !st.leftPressed then pressKey { st with leftPressed := true } .leftArrow else st
    if st.rightPressed then releaseKey { st with rightPressed := false } .rightArrow else st

/-- The dy latch logic (lines 357–377); note the inverted-Y convention:
`dy < 0` latches UP_ARROW. -/
def kbLatchY (i : Input) (st : PCCState) : PCCState :=
  if i.dy = 0 then
    let st := if st.upPressed then releaseKey { st with upPressed := false } .upArrow else st
    if st.downPressed then releaseKey { st with downPressed := false } .downArrow else st
  else if i.dy < 0 then
    let st := if !st.upPressed then pressKey { st with upPressed := true } .upArrow else st
    if st.downPressed then releaseKey { st with downPressed := false } .downArrow else st
  else
    let st := if st.upPressed then releaseKey { st with upPressed := false } .upArrow else st
    if !st.downPressed then pressKey { st with downPressed := true } .downArrow else st

def keyboardSection (i : Input) (st : PCCState) : PCCState :=
  if st.state = .keyboard ∨ st.state = .kwaitingToJ ∨ st.state = .kwaitingToMC then
    kbLatchY i (kbLatchX i (kbC i (kbZ i (kbX i (kbSpace i st)))))
  else st

/-! The "Command Center Minecraft Handling" block (lines 381–503). -/

/-- Modifier button block (lines 384–404). -/
def mcModifier (i : Input) (st : PCCState) : PCCState :=
  if i.mcBottom then
    if pressedEvt st.prevZ i.z then
      { st with mcFlyingdownReq := true, mcSprintingReq := false,
                mcCrouchingReq := false, mcUtilityReq := false }
    else if pressedEvt st.prevDpadU i.dpadU then
      { st with mcFlyingdownReq := false, mcSprintingReq := true,
                mcCrouchingReq := false, mcUtilityReq := false }
    else if pressedEvt st.prevDpadD i.dpadD then
      { st with mcFlyingdownReq := false, mcSprintingReq := false,
                mcCrouchingReq := true, mcUtilityReq := false }
    else if pressedEvt st.prevDpadL i.dpadL then
      { st with mcFlyingdownReq := false, mcSprintingReq := false,
                mcCrouchingReq := false, mcUtilityReq := true }
    else st
  else st

/-- Commit-on-modifier-release block (lines 406–423). -/
def mcCommit (i : Input) (st : PCCState) : PCCState :=
  if releasedEvt st.prevMcBottom i.mcBottom then
    let st := releaseMinecraftHID st
    if st.mcFlyingdownReq then
      { st with mcMode := .flyingdown, mcFlyingdownReq := false }
    else if st.mcSprintingReq then
      pressKey { st with mcMode := .sprinting, mcSprintingReq := false } .control
    else if st.mcCrouchingReq then
      pressKey { st with mcMode := .crouching, mcCrouchingReq := false } .leftShift
    else if st.mcUtilityReq then
      { st with mcMode := .utility, mcUtilityReq := false }
    else
      { st with mcMode := .mcDefault }
  else st

/-- Mouse movement pacing in Minecraft mode (lines 429–431). -/
def mcMouseMove (i : Input) (st : PCCState) : PCCState :=
  if i.now - st.lastMouse > 1/200 then
    moveMouse { st with lastMouse := i.now } i.dx i.dy 0
  else st

/-- Top/middle button mapping with the modifier held in the default
sub-mode (lines 436–444). -/
def mcTopMiddleDefault (i : Input) (st : PCCState) : PCCState :=
  let st := if pressedEvt st.prevMcTop i.mcTop then pressKey st .q
            else if releasedEvt st.prevMcTop i.mcTop then releaseKey st .q
            else st
  if pressedEvt st.prevMcMiddle i.mcMiddle then pressMouse st .middle
  else if releasedEvt st.prevMcMiddle i.mcMiddle then releaseMouse st .middle
  else st

/-- Top/middle button mapping otherwise (lines 446–454). -/
def mcTopMiddleOther (i : Input) (st : PCCState) : PCCState :=
  let st := if pressedEvt st.prevMcTop i.mcTop then pressMouse st .left
            else if releasedEvt st.prevMcTop i.mcTop then releaseMouse st .left
            else st
  if pressedEvt st.prevMcMiddle i.mcMiddle then pressMouse st .right
  else if releasedEvt st.prevMcMiddle i.mcMiddle then releaseMouse st .right
  else st

/-- Top/middle button mapping (lines 435–454). -/
def mcTopMiddle (i : Input) (st : PCCState) : PCCState :=
  if st.mcMode = .mcDefault ∧ i.mcBottom then mcTopMiddleDefault i st
  else mcTopMiddleOther i st

/-- Joystick button keycode by sub-mode (lines 461–464). -/
def mcZButton (i : Input) (st : PCCState) : PCCState :=
  if pressedEvt st.prevZ i.z then pressKey st (mcJoystickZ st.mcMode)
  else if releasedEvt st.prevZ i.z then releaseKey st (mcJoystickZ st.mcMode)
  else st

/-- Utility sub-mode: DPad up scrolls (lines 469–470). -/
def mcUtilU (i : Input) (st : PCCState) : PCCState :=
  if pressedEvt st.prevDpadU i.dpadU then moveMouse st 0 0 (-1) else st

/-- Utility sub-mode: DPad down scrolls (lines 472–473). -/
def mcUtilD (i : Input) (st : PCCState) : PCCState :=
  if pressedEvt st.prevDpadD i.dpadD then moveMouse st 0 0 1 else st

/-- Utility sub-mode: DPad left is E (lines 475–478). -/
def mcUtilL (i : Input) (st : PCCState) : PCCState :=
  if pressedEvt st.prevDpadL i.dpadL then pressKey st .e
  else if releasedEvt st.prevDpadL i.dpadL then releaseKey st .e
  else st

/-- Utility sub-mode: DPad right is ESCAPE (lines 480–483). -/
def mcUtilR (i : Input) (st : PCCState) : PCCState :=
  if pressedEvt st.prevDpadR i.dpadR then pressKey st .escape
  else if releasedEvt st.prevDpadR i.dpadR then releaseKey st .escape
  else st

/-- DPad mapping in the utility sub-mode (lines 468–483). -/
def mcDpadUtility (i : Input) (st : PCCState) : PCCState :=
  mcUtilR i (mcUtilL i (mcUtilD i (mcUtilU i st)))

/-- Non-utility sub-modes: DPad up is W (lines 485–488). -/
def mcWasdU (i : Input) (st : PCCState) : PCCState :=
  if pressedEvt st.prevDpadU i.dpadU then pressKey st .w
  else if releasedEvt st.prevDpadU i.dpadU then releaseKey st .w
  else st

/-- Non-utility sub-modes: DPad down is S (lines 490–493). -/
def mcWasdD (i : Input) (st : PCCState) : PCCState :=
  if pressedEvt st.prevDpadD i.dpadD then pressKey st .s
  else if releasedEvt st.prevDpadD i.dpadD then releaseKey st .s
  else st

/-- Non-utility sub-modes: DPad left is A (lines 495–498). -/
def mcWasdL (i : Input) (st : PCCState) : PCCState :=
  if pressedEvt st.prevDpadL i.dpadL then pressKey st .a
  else if releasedEvt st.prevDpadL i.dpadL then releaseKey st .a
  else st

/-- Non-utility sub-modes: DPad right is D (lines 500–503). -/
def mcWasdR (i : Input) (st : PCCState) : PCCState :=
  if pressedEvt st.prevDpadR i.dpadR then pressKey st .d
  else if releasedEvt st.prevDpadR i.dpadR then releaseKey st .d
  else st

/-- DPad mapping in the non-utility sub-modes (lines 485–503). -/
def mcDpadWasd (i : Input) (st : PCCState) : PCCState :=
  mcWasdR i (mcWasdL i (mcWasdD i (mcWasdU i st)))

/-- The `if not bottomPressed()` block (lines 458–503). -/
def mcNoModifier (i : Input) (st : PCCState) : PCCState :=
  if !i.mcBottom then
    let st := mcZButton i st
    if st.mcMode = .utility then mcDpadUtility i st else mcDpadWasd i st
  else st

def minecraftSection (i : Input) (st : PCCState) : PCCState :=
  if st.state = .minecraft then
    mcNoModifier i (mcTopMiddle i (mcMouseMove i (mcCommit i (mcModifier i st))))
  else st

/-- One call of `PiperCommandCenter.process` (lines 189–503): update the
debouncers (modelled: edges are computed against the previous tick's
levels, which are stored at the end of the tick), read the conditioned
axis deltas (given in the input), run the state machine, then the
per-personality handling blocks, which test the already-updated state.
The REPL pass-through and the LED writes are external/display-only and are
omitted.  Note: in the source, every query of the Minecraft buttons would
actually raise `AttributeError` (see the `PiperMineCraftButtons` section
below); here the documented debounced-button semantics is used so that the
state machine logic itself can be verified. -/
def process (st : PCCState) (i : Input) : PCCState :=
  let s0 := { st with tickEvents := [] }
  let s1 := stateMachine s0 i
  let s2 := joystickSection i s1
  let s3 := keyboardSection i s2
  let s4 := minecraftSection i s3
  { s4 with prevZ := i.z, prevDpadL := i.dpadL, prevDpadR := i.dpadR,
            prevDpadU := i.dpadU, prevDpadD := i.dpadD, prevMcTop := i.mcTop,
            prevMcMiddle := i.mcMiddle, prevMcBottom := i.mcBottom }

/-- The debounced levels captured when the `Debouncer`s are constructed
(they sample the pins at construction time, so any combination may occur). -/
structure InitLevels where
  z : Bool
  dpadL : Bool
  dpadR : Bool
  dpadU : Bool
  dpadD : Bool
  mcTop : Bool
  mcMiddle : Bool
  mcBottom : Bool
  deriving DecidableEq, Repr

/-- The state built by `PiperCommandCenter.__init__` (lines 132–148):
`state = _UNWIRED`, all timers set to the construction-time clock, all
latch flags false, `mc_mode = _MC_DEFAULT`, all pending requests false,
nothing pressed on the HID sink. -/
def initState (t0 : ℚ) (lv : InitLevels) : PCCState :=
  { state := .unwired, timer := t0, lastMouse := t0, lastMouseWheel := t0,
    upPressed := false, downPressed := false,
    leftPressed := false, rightPressed := false,
    mcMode := .mcDefault, mcFlyingdownReq := false, mcSprintingReq := false,
    mcCrouchingReq := false, mcUtilityReq := false,
    kbd := [], mouseBtns := [],
    prevZ := lv.z, prevDpadL := lv.dpadL, prevDpadR := lv.dpadR,
    prevDpadU := lv.dpadU, prevDpadD := lv.dpadD, prevMcTop := lv.mcTop,
    prevMcMiddle := lv.mcMiddle, prevMcBottom := lv.mcBottom,
    tickEvents := [] }

/-- States reachable by repeated calls of `process` from a freshly
constructed `PiperCommandCenter`. -/
inductive Reachable : PCCState → Prop
  | init (t0 : ℚ) (lv : InitLevels) : Reachable (initState t0 lv)
  | step {st : PCCState} (h : Reachable st) (i : Input) : Reachable (process st i)

/-- Folding `process` over a list of tick inputs. -/
def runTicks (st : PCCState) (l : List Input) : PCCState :=
  l.foldl process st

/-- Number of occurrences of a HID event in a tick's event log. -/
def countEvt (e : HidEvent) : List HidEvent → ℕ
  | [] => 0
  | e' :: l => (if e' = e then 1 else 0) + countEvt e l

/-- Total occurrences of a HID event over a run of ticks. -/
def runCountEvt (e : HidEvent) (st : PCCState) : List Input → ℕ
  | [] => 0
  | i :: l => countEvt e (process st i).tickEvents + runCountEvt e (process st i) l

/-! ### HID-set membership lemmas -/

theorem mem_pressKey (st : PCCState) (k k' : Keycode) :
    k' ∈ (pressKey st k).kbd ↔ (k' = k ∨ k' ∈ st.kbd) := by
  unfold pressKey
  split_ifs with h
  · simp only []
    exact ⟨Or.inr, fun h' => h'.elim (fun e => e ▸ h) id⟩
  · simp [List.mem_cons]

theorem mem_releaseKey (st : PCCState) (k k' : Keycode) :
    k' ∈ (releaseKey st k).kbd ↔ (k' ∈ st.kbd ∧ k' ≠ k) := by
  unfold releaseKey
  simp [List.mem_filter]

theorem mem_pressMouse (st : PCCState) (b b' : MouseButton) :
    b' ∈ (pressMouse st b).mouseBtns ↔ (b' = b ∨ b' ∈ st.mouseBtns) := by
  unfold pressMouse
  split_ifs with h
  · simp only []
    exact ⟨Or.inr, fun h' => h'.elim (fun e => e ▸ h) id⟩
  · simp [List.mem_cons]

theorem mem_releaseMouse (st : PCCState) (b b' : MouseButton) :
    b' ∈ (releaseMouse st b).mouseBtns ↔ (b' ∈ st.mouseBtns ∧ b' ≠ b) := by
  unfold releaseMouse
  simp [List.mem_filter]

theorem countEvt_append (e : HidEvent) (l1 l2 : List HidEvent) :
    countEvt e (l1 ++ l2) = countEvt e l1 + countEvt e l2 := by
  induction l1 with
  | nil => simp [countEvt]
  | cons a l ih => simp [countEvt, ih]; omega

/-! ### Update shapes of the handling steps

Each per-tick handling statement only updates a known set of fields; these
lemmas expose that shape so that "everything else is untouched" is a single
rewrite. -/

theorem releaseJoystickHID_spec (st : PCCState) :
    ∃ mb ev, releaseJoystickHID st = { st with mouseBtns := mb, tickEvents := ev } := by
  unfold releaseJoystickHID releaseMouse
  exact ⟨_, _, rfl⟩

theorem releaseKeyboardHID_spec (st : PCCState) :
    ∃ kb ev, releaseKeyboardHID st = { st with kbd := kb, tickEvents := ev } := by
  unfold releaseKeyboardHID releaseKey
  exact ⟨_, _, rfl⟩

theorem releaseMinecraftHID_spec (st : PCCState) :
    ∃ kb mb ev, releaseMinecraftHID st =
      { st with kbd := kb, mouseBtns := mb, tickEvents := ev } := by
  unfold releaseMinecraftHID releaseKey releaseMouse
  dsimp only
  exact ⟨_, _, _, rfl⟩

theorem jsMouseMove_spec (i : Input) (st : PCCState) :
    ∃ lm ev, jsMouseMove i st = { st with lastMouse := lm, tickEvents := ev } := by
  unfold jsMouseMove moveMouse
  split_ifs <;> exact ⟨_, _, rfl⟩

theorem jsWheel_spec (i : Input) (st : PCCState) :
    ∃ lw ev, jsWheel i st = { st with lastMouseWheel := lw, tickEvents := ev } := by
  unfold jsWheel moveMouse
  dsimp only
  split_ifs <;> exact ⟨_, _, rfl⟩

theorem jsLeftButton_spec (i : Input) (st : PCCState) :
    ∃ mb ev, jsLeftButton i st = { st with mouseBtns := mb, tickEvents := ev } := by
  unfold jsLeftButton pressMouse releaseMouse
  split_ifs <;> exact ⟨_, _, rfl⟩

theorem jsRightButton_spec (i : Input) (st : PCCState) :
    ∃ mb ev, jsRightButton i st = { st with mouseBtns := mb, tickEvents := ev } := by
  unfold jsRightButton pressMouse releaseMouse
  split_ifs <;> exact ⟨_, _, rfl⟩

theorem kbSpace_spec (i : Input) (st : PCCState) :
    ∃ kb ev, kbSpace i st = { st with kbd := kb, tickEvents := ev } := by
  unfold kbSpace pressKey releaseKey
  split_ifs <;> exact ⟨_, _, rfl⟩

theorem kbX_spec (i : Input) (st : PCCState) :
    ∃ kb ev, kbX i st = { st with kbd := kb, tickEvents := ev } := by
  unfold kbX pressKey releaseKey
  split_ifs <;> exact ⟨_, _, rfl⟩

theorem kbZ_spec (i : Input) (st : PCCState) :
    ∃ kb ev, kbZ i st = { st with kbd := kb, tickEvents := ev } := by
  unfold kbZ pressKey releaseKey
  split_ifs <;> exact ⟨_, _, rfl⟩

theorem kbC_spec (i : Input) (st : PCCState) :
    ∃ kb ev, kbC i st = { st with kbd := kb, tickEvents := ev } := by
  unfold kbC pressKey releaseKey
  split_ifs <;> exact ⟨_, _, rfl⟩

theorem kbLatchX_spec (i : Input) (st : PCCState) :
    ∃ kb ev l r, kbLatchX i st =
      { st with kbd := kb, tickEvents := ev, leftPressed := l, rightPressed := r } := by
  unfold kbLatchX pressKey releaseKey
  dsimp only
  split_ifs <;> exact ⟨_, _, _, _, rfl⟩

theorem kbLatchY_spec (i : Input) (st : PCCState) :
    ∃ kb ev u d, kbLatchY i st =
      { st with kbd := kb, tickEvents := ev, upPressed := u, downPressed := d } := by
  unfold kbLatchY pressKey releaseKey
  dsimp only
  split_ifs <;> exact ⟨_, _, _, _, rfl⟩

theorem mcModifier_spec (i : Input) (st : PCCState) :
    ∃ f sp cr ut, mcModifier i st =
      { st with mcFlyingdownReq := f, mcSprintingReq := sp,
                mcCrouchingReq := cr, mcUtilityReq := ut } := by
  unfold mcModifier
  split_ifs <;> exact ⟨_, _, _, _, rfl⟩

theorem mcCommit_spec (i : Input) (st : PCCState) :
    ∃ kb mb ev mode f sp cr ut, mcCommit i st =
      { st with kbd := kb, mouseBtns := mb, tickEvents := ev, mcMode := mode,
                mcFlyingdownReq := f, mcSprintingReq := sp,
                mcCrouchingReq := cr, mcUtilityReq := ut } := by
  unfold mcCommit pressKey
  by_cases h : releasedEvt st.prevMcBottom i.mcBottom
  · rw [if_pos h]
    obtain ⟨kb0, mb0, ev0, hr⟩ := releaseMinecraftHID_spec st
    dsimp only
    rw [hr]
    split_ifs <;> exact ⟨_, _, _, _, _, _, _, _, rfl⟩
  · rw [if_neg h]
    exact ⟨_, _, _, _, _, _, _, _, rfl⟩

theorem mcMouseMove_spec (i : Input) (st : PCCState) :
    ∃ lm ev, mcMouseMove i st = { st with lastMouse := lm, tickEvents := ev } := by
  unfold mcMouseMove moveMouse
  split_ifs <;> exact ⟨_, _, rfl⟩

theorem mcTopMiddleDefault_spec (i : Input) (st : PCCState) :
    ∃ kb mb ev, mcTopMiddleDefault i st =
      { st with kbd := kb, mouseBtns := mb, tickEvents := ev } := by
  unfold mcTopMiddleDefault pressKey releaseKey pressMouse releaseMouse
  dsimp only
  split_ifs <;> exact ⟨_, _, _, rfl⟩

theorem mcTopMiddleOther_spec (i : Input) (st : PCCState) :
    ∃ kb mb ev, mcTopMiddleOther i st =
      { st with kbd := kb, mouseBtns := mb, tickEvents := ev } := by
  unfold mcTopMiddleOther pressMouse releaseMouse
  dsimp only
  split_ifs <;> exact ⟨_, _, _, rfl⟩

theorem mcTopMiddle_spec (i : Input) (st : PCCState) :
    ∃ kb mb ev, mcTopMiddle i st =
      { st with kbd := kb, mouseBtns := mb, tickEvents := ev } := by
  unfold mcTopMiddle
  split_ifs
  · exact mcTopMiddleDefault_spec i st
  · exact mcTopMiddleOther_spec i st

theorem mcZButton_spec (i : Input) (st : PCCState) :
    ∃ kb ev, mcZButton i st = { st with kbd := kb, tickEvents := ev } := by
  unfold mcZButton pressKey releaseKey
  split_ifs <;> exact ⟨_, _, rfl⟩

theorem mcUtilU_spec (i : Input) (st : PCCState) :
    ∃ ev, mcUtilU i st = { st with tickEvents := ev } := by
  unfold mcUtilU moveMouse
  split_ifs <;> exact ⟨_, rfl⟩

theorem mcUtilD_spec (i : Input) (st : PCCState) :
    ∃ ev, mcUtilD i st = { st with tickEvents := ev } := by
  unfold mcUtilD moveMouse
  split_ifs <;> exact ⟨_, rfl⟩

theorem mcUtilL_spec (i : Input) (st : PCCState) :
    ∃ kb ev, mcUtilL i st = { st with kbd := kb, tickEvents := ev } := by
  unfold mcUtilL pressKey releaseKey
  split_ifs <;> exact ⟨_, _, rfl⟩

theorem mcUtilR_spec (i : Input) (st : PCCState) :
    ∃ kb ev, mcUtilR i st = { st with kbd := kb, tickEvents := ev } := by
  unfold mcUtilR pressKey releaseKey
  split_ifs <;> exact ⟨_, _, rfl⟩

theorem mcDpadUtility_spec (i : Input) (st : PCCState) :
    ∃ kb ev, mcDpadUtility i st = { st with kbd := kb, tickEvents := ev } := by
  unfold mcDpadUtility
  obtain ⟨e1, h1⟩ := mcUtilU_spec i st
  obtain ⟨e2, h2⟩ := mcUtilD_spec i (mcUtilU i st)
  obtain ⟨k3, e3, h3⟩ := mcUtilL_spec i (mcUtilD i (mcUtilU i st))
  obtain ⟨k4, e4, h4⟩ := mcUtilR_spec i (mcUtilL i (mcUtilD i (mcUtilU i st)))
  rw [h4, h3, h2, h1]
  exact ⟨_, _, rfl⟩

theorem mcWasdU_spec (i : Input) (st : PCCState) :
    ∃ kb ev, mcWasdU i st = { st with kbd := kb, tickEvents := ev } := by
  unfold mcWasdU pressKey releaseKey
  split_ifs <;> exact ⟨_, _, rfl⟩

theorem mcWasdD_spec (i : Input) (st : PCCState) :
    ∃ kb ev, mcWasdD i st = { st with kbd := kb, tickEvents := ev } := by
  unfold mcWasdD pressKey releaseKey
  split_ifs <;> exact ⟨_, _, rfl⟩

theorem mcWasdL_spec (i : Input) (st : PCCState) :
    ∃ kb ev, mcWasdL i st = { st with kbd := kb, tickEvents := ev } := by
  unfold mcWasdL pressKey releaseKey
  split_ifs <;> exact ⟨_, _, rfl⟩

theorem mcWasdR_spec (i : Input) (st : PCCState) :
    ∃ kb ev, mcWasdR i st = { st with kbd := kb, tickEvents := ev } := by
  unfold mcWasdR pressKey releaseKey
  split_ifs <;> exact ⟨_, _, rfl⟩

theorem mcDpadWasd_spec (i : Input) (st : PCCState) :
    ∃ kb ev, mcDpadWasd i st = { st with kbd := kb, tickEvents := ev } := by
  unfold mcDpadWasd
  obtain ⟨k1, e1, h1⟩ := mcWasdU_spec i st
  obtain ⟨k2, e2, h2⟩ := mcWasdD_spec i (mcWasdU i st)
  obtain ⟨k3, e3, h3⟩ := mcWasdL_spec i (mcWasdD i (mcWasdU i st))
  obtain ⟨k4, e4, h4⟩ := mcWasdR_spec i (mcWasdL i (mcWasdD i (mcWasdU i st)))
  rw [h4, h3, h2, h1]
  exact ⟨_, _, rfl⟩

theorem mcNoModifier_spec (i : Input) (st : PCCState) :
    ∃ kb ev, mcNoModifier i st = { st with kbd := kb, tickEvents := ev } := by
  unfold mcNoModifier
  dsimp only
  split_ifs with h1 h2
  · obtain ⟨k1, e1, hz⟩ := mcZButton_spec i st
    obtain ⟨k2, e2, hd⟩ := mcDpadUtility_spec i (mcZButton i st)
    rw [hd, hz]
    exact ⟨_, _, rfl⟩
  · obtain ⟨k1, e1, hz⟩ := mcZButton_spec i st
    obtain ⟨k2, e2, hd⟩ := mcDpadWasd_spec i (mcZButton i st)
    rw [hd, hz]
    exact ⟨_, _, rfl⟩
  · exact ⟨_, _, rfl⟩

/-! ### Section-level update shapes -/

/-- The update shape of the whole joystick handling block relative to a
base state: only `mouseBtns`, `tickEvents` and the two pacing clocks
change. -/
def JsShape (st a : PCCState) : Prop :=
  ∃ mb ev lm lw, a =
    { st with mouseBtns := mb, tickEvents := ev,
              lastMouse := lm, lastMouseWheel := lw }

theorem jsShape_refl (st : PCCState) : JsShape st st :=
  ⟨_, _, _, _, rfl⟩

theorem jsShape_lmev {st a b : PCCState}
    (h1 : JsShape st a)
    (h2 : ∃ lm ev, b = { a with lastMouse := lm, tickEvents := ev }) :
    JsShape st b := by
  obtain ⟨mb, ev, lm, lw, rfl⟩ := h1
  obtain ⟨lm2, ev2, rfl⟩ := h2
  exact ⟨mb, ev2, lm2, lw, rfl⟩

theorem jsShape_lwev {st a b : PCCState}
    (h1 : JsShape st a)
    (h2 : ∃ lw ev, b = { a with lastMouseWheel := lw, tickEvents := ev }) :
    JsShape st b := by
  obtain ⟨mb, ev, lm, lw, rfl⟩ := h1
  obtain ⟨lw2, ev2, rfl⟩ := h2
  exact ⟨mb, ev2, lm, lw2, rfl⟩

theorem jsShape_mbev {st a b : PCCState}
    (h1 : JsShape st a)
    (h2 : ∃ mb ev, b = { a with mouseBtns := mb, tickEvents := ev }) :
    JsShape st b := by
  obtain ⟨mb, ev, lm, lw, rfl⟩ := h1
  obtain ⟨mb2, ev2, rfl⟩ := h2
  exact ⟨mb2, ev2, lm, lw, rfl⟩

theorem joystickSection_spec (i : Input) (st : PCCState) :
    JsShape st (joystickSection i st) := by
  unfold joystickSection
  split_ifs with h
  · exact jsShape_mbev
      (jsShape_mbev
        (jsShape_lwev
          (jsShape_lmev (jsShape_refl st) (jsMouseMove_spec i st))
          (jsWheel_spec i (jsMouseMove i st)))
        (jsLeftButton_spec i (jsWheel i (jsMouseMove i st))))
      (jsRightButton_spec i (jsLeftButton i (jsWheel i (jsMouseMove i st))))
  · exact jsShape_refl st

/-- The update shape of the whole keyboard handling block relative to a
base state: only `kbd`, `tickEvents` and the four latch flags change. -/
def KbShape (st a : PCCState) : Prop :=
  ∃ kb ev u d l r, a =
    { st with kbd := kb, tickEvents := ev, upPressed := u,
              downPressed := d, leftPressed := l, rightPressed := r }

theorem kbShape_refl (st : PCCState) : KbShape st st :=
  ⟨_, _, _, _, _, _, rfl⟩

theorem kbShape_kbdev {st a b : PCCState}
    (h1 : KbShape st a) (h2 : ∃ kb ev, b = { a with kbd := kb, tickEvents := ev }) :
    KbShape st b := by
  obtain ⟨kb, ev, u, d, l, r, rfl⟩ := h1
  obtain ⟨kb2, ev2, rfl⟩ := h2
  exact ⟨kb2, ev2, u, d, l, r, rfl⟩

theorem kbShape_latchX {st a b : PCCState}
    (h1 : KbShape st a)
    (h2 : ∃ kb ev l r, b =
      { a with kbd := kb, tickEvents := ev, leftPressed := l, rightPressed := r }) :
    KbShape st b := by
  obtain ⟨kb, ev, u, d, l, r, rfl⟩ := h1
  obtain ⟨kb2, ev2, l2, r2, rfl⟩ := h2
  exact ⟨kb2, ev2, u, d, l2, r2, rfl⟩

theorem kbShape_latchY {st a b : PCCState}
    (h1 : KbShape st a)
    (h2 : ∃ kb ev u d, b =
      { a with kbd := kb, tickEvents := ev, upPressed := u, downPressed := d }) :
    KbShape st b := by
  obtain ⟨kb, ev, u, d, l, r, rfl⟩ := h1
  obtain ⟨kb2, ev2, u2, d2, rfl⟩ := h2
  exact ⟨kb2, ev2, u2, d2, l, r, rfl⟩

theorem keyboardSection_spec (i : Input) (st : PCCState) :
    KbShape st (keyboardSection i st) := by
  unfold keyboardSection
  split_ifs with h
  · exact kbShape_latchY
      (kbShape_latchX
        (kbShape_kbdev
          (kbShape_kbdev
            (kbShape_kbdev
              (kbShape_kbdev (kbShape_refl st) (kbSpace_spec i st))
              (kbX_spec i (kbSpace i st)))
            (kbZ_spec i (kbX i (kbSpace i st))))
          (kbC_spec i (kbZ i (kbX i (kbSpace i st)))))
        (kbLatchX_spec i (kbC i (kbZ i (kbX i (kbSpace i st))))))
      (kbLatchY_spec i (kbLatchX i (kbC i (kbZ i (kbX i (kbSpace i st))))))
  · exact kbShape_refl st

/-- The update shape of the whole Minecraft handling block relative to a
base state: only `kbd`, `mouseBtns`, `tickEvents`, `lastMouse`, the
sub-mode and the four pending-request flags change. -/
def McShape (st a : PCCState) : Prop :=
  ∃ kb mb ev lm mode f sp cr ut, a =
    { st with kbd := kb, mouseBtns := mb, tickEvents := ev, lastMouse := lm,
              mcMode := mode, mcFlyingdownReq := f, mcSprintingReq := sp,
              mcCrouchingReq := cr, mcUtilityReq := ut }

theorem mcShape_refl (st : PCCState) : McShape st st :=
  ⟨_, _, _, _, _, _, _, _, _, rfl⟩

theorem mcShape_reqs {st a b : PCCState}
    (h1 : McShape st a)
    (h2 : ∃ f sp cr ut, b =
      { a with mcFlyingdownReq := f, mcSprintingReq := sp,
               mcCrouchingReq := cr, mcUtilityReq := ut }) :
    McShape st b := by
  obtain ⟨kb, mb, ev, lm, mode, f, sp, cr, ut, rfl⟩ := h1
  obtain ⟨f2, sp2, cr2, ut2, rfl⟩ := h2
  exact ⟨kb, mb, ev, lm, mode, f2, sp2, cr2, ut2, rfl⟩

theorem mcShape_commit {st a b : PCCState}
    (h1 : McShape st a)
    (h2 : ∃ kb mb ev mode f sp cr ut, b =
      { a with kbd := kb, mouseBtns := mb, tickEvents := ev, mcMode := mode,
               mcFlyingdownReq := f, mcSprintingReq := sp,
               mcCrouchingReq := cr, mcUtilityReq := ut }) :
    McShape st b := by
  obtain ⟨kb, mb, ev, lm, mode, f, sp, cr, ut, rfl⟩ := h1
  obtain ⟨kb2, mb2, ev2, mode2, f2, sp2, cr2, ut2, rfl⟩ := h2
  exact ⟨kb2, mb2, ev2, lm, mode2, f2, sp2, cr2, ut2, rfl⟩

theorem mcShape_lmev {st a b : PCCState}
    (h1 : McShape st a)
    (h2 : ∃ lm ev, b = { a with lastMouse := lm, tickEvents := ev }) :
    McShape st b := by
  obtain ⟨kb, mb, ev, lm, mode, f, sp, cr, ut, rfl⟩ := h1
  obtain ⟨lm2, ev2, rfl⟩ := h2
  exact ⟨kb, mb, ev2, lm2, mode, f, sp, cr, ut, rfl⟩

theorem mcShape_kbmbev {st a b : PCCState}
    (h1 : McShape st a)
    (h2 : ∃ kb mb ev, b =
      { a with kbd := kb, mouseBtns := mb, tickEvents := ev }) :
    McShape st b := by
  obtain ⟨kb, mb, ev, lm, mode, f, sp, cr, ut, rfl⟩ := h1
  obtain ⟨kb2, mb2, ev2, rfl⟩ := h2
  exact ⟨kb2, mb2, ev2, lm, mode, f, sp, cr, ut, rfl⟩

theorem mcShape_kbev {st a b : PCCState}
    (h1 : McShape st a)
    (h2 : ∃ kb ev, b = { a with kbd := kb, tickEvents := ev }) :
    McShape st b := by
  obtain ⟨kb, mb, ev, lm, mode, f, sp, cr, ut, rfl⟩ := h1
  obtain ⟨kb2, ev2, rfl⟩ := h2
  exact ⟨kb2, mb, ev2, lm, mode, f, sp, cr, ut, rfl⟩

theorem minecraftSection_spec (i : Input) (st : PCCState) :
    McShape st (minecraftSection i st) := by
  unfold minecraftSection
  split_ifs with h
  · exact mcShape_kbev
      (mcShape_kbmbev
        (mcShape_lmev
          (mcShape_commit
            (mcShape_reqs (mcShape_refl st) (mcModifier_spec i st))
            (mcCommit_spec i (mcModifier i st)))
          (mcMouseMove_spec i (mcCommit i (mcModifier i st))))
        (mcTopMiddle_spec i (mcMouseMove i (mcCommit i (mcModifier i st)))))
      (mcNoModifier_spec i (mcTopMiddle i (mcMouseMove i (mcCommit i (mcModifier i st)))))
  · exact mcShape_refl st

/-! ### State machine branch equations and `process` decomposition -/

theorem stateMachine_eq_unwired (st : PCCState) (i : Input)
    (h : st.state = .unwired) :
    stateMachine st i =
      if i.dx = 0 ∧ i.dy = 0 then { st with state := .waiting, timer := i.now }
      else st := by
  unfold stateMachine
  rw [h]

theorem stateMachine_eq_waiting (st : PCCState) (i : Input)
    (h : st.state = .waiting) :
    stateMachine st i =
      if i.dx ≠ 0 ∨ i.dy ≠ 0 then { st with state := .unwired }
      else if i.now - st.timer > 1/2 then { st with state := .joystick }
      else st := by
  unfold stateMachine
  rw [h]

theorem stateMachine_eq_joystick (st : PCCState) (i : Input)
    (h : st.state = .joystick) :
    stateMachine st i =
      if i.z then { st with timer := i.now, state := .jwaiting } else st := by
  unfold stateMachine
  rw [h]

theorem stateMachine_eq_jwaiting (st : PCCState) (i : Input)
    (h : st.state = .jwaiting) :
    stateMachine st i =
      if !i.z then { st with state := .joystick }
      else if i.now - st.timer > 1 then
        releaseJoystickHID { st with state := .keyboard }
      else st := by
  unfold stateMachine
  rw [h]

theorem stateMachine_eq_keyboard (st : PCCState) (i : Input)
    (h : st.state = .keyboard) :
    stateMachine st i =
      if i.z && !i.mcBottom then { st with timer := i.now, state := .kwaitingToJ }
      else if i.z && i.mcBottom then { st with timer := i.now, state := .kwaitingToMC }
      else st := by
  unfold stateMachine
  rw [h]

theorem stateMachine_eq_kwaitingToJ (st : PCCState) (i : Input)
    (h : st.state = .kwaitingToJ) :
    stateMachine st i =
      if !i.z || i.mcBottom then
        { st with state := .keyboard, upPressed := false, downPressed := false,
                  leftPressed := false, rightPressed := false }
      else if i.now - st.timer > 1 then
        releaseKeyboardHID { st with state := .joystick }
      else st := by
  unfold stateMachine
  rw [h]

theorem stateMachine_eq_kwaitingToMC (st : PCCState) (i : Input)
    (h : st.state = .kwaitingToMC) :
    stateMachine st i =
      if !i.z || !i.mcBottom then
        { st with state := .keyboard, upPressed := false, downPressed := false,
                  leftPressed := false, rightPressed := false }
      else if i.now - st.timer > 1 then
        releaseKeyboardHID { st with state := .minecraft }
      else st := by
  unfold stateMachine
  rw [h]

theorem stateMachine_eq_minecraft (st : PCCState) (i : Input)
    (h : st.state = .minecraft) :
    stateMachine st i =
      if i.z && i.dpadU && i.dpadD && i.dpadL && i.dpadR then
        { st with timer := i.now, state := .mwaiting }
      else st := by
  unfold stateMachine
  rw [h]

theorem stateMachine_eq_mwaiting (st : PCCState) (i : Input)
    (h : st.state = .mwaiting) :
    stateMachine st i =
      if !i.z || !i.dpadU || !i.dpadD || !i.dpadL || !i.dpadR then
        { st with state := .minecraft }
      else if i.now - st.timer > 1 then
        releaseMinecraftHID { st with state := .joystick }
      else st := by
  unfold stateMachine
  rw [h]

/-- Everything the three handling blocks and the end-of-tick bookkeeping
may change after the state machine ran: the HID sets, the event log, the
pacing clocks, the latch flags, the Minecraft sub-mode state, and the
stored button levels (which always become this tick's levels).  The mode
tag and the timer are exactly those of the state machine. -/
def PShape (base a : PCCState) : Prop :=
  ∃ kb mb ev lm lw u d l r mode f sp cr ut, a =
    { base with kbd := kb, mouseBtns := mb, tickEvents := ev, lastMouse := lm,
                lastMouseWheel := lw, upPressed := u, downPressed := d,
                leftPressed := l, rightPressed := r, mcMode := mode,
                mcFlyingdownReq := f, mcSprintingReq := sp,
                mcCrouchingReq := cr, mcUtilityReq := ut }

theorem pShape_refl (st : PCCState) : PShape st st :=
  ⟨_, _, _, _, _, _, _, _, _, _, _, _, _, _, rfl⟩

theorem pShape_js {st a b : PCCState} (h1 : PShape st a) (h2 : JsShape a b) :
    PShape st b := by
  obtain ⟨kb, mb, ev, lm, lw, u, d, l, r, mode, f, sp, cr, ut, rfl⟩ := h1
  obtain ⟨mb2, ev2, lm2, lw2, rfl⟩ := h2
  exact ⟨kb, mb2, ev2, lm2, lw2, u, d, l, r, mode, f, sp, cr, ut, rfl⟩

theorem pShape_kb {st a b : PCCState} (h1 : PShape st a) (h2 : KbShape a b) :
    PShape st b := by
  obtain ⟨kb, mb, ev, lm, lw, u, d, l, r, mode, f, sp, cr, ut, rfl⟩ := h1
  obtain ⟨kb2, ev2, u2, d2, l2, r2, rfl⟩ := h2
  exact ⟨kb2, mb, ev2, lm, lw, u2, d2, l2, r2, mode, f, sp, cr, ut, rfl⟩

theorem pShape_mc {st a b : PCCState} (h1 : PShape st a) (h2 : McShape a b) :
    PShape st b := by
  obtain ⟨kb, mb, ev, lm, lw, u, d, l, r, mode, f, sp, cr, ut, rfl⟩ := h1
  obtain ⟨kb2, mb2, ev2, lm2, mode2, f2, sp2, cr2, ut2, rfl⟩ := h2
  exact ⟨kb2, mb2, ev2, lm2, lw, u, d, l, r, mode2, f2, sp2, cr2, ut2, rfl⟩

theorem process_spec (st : PCCState) (i : Input) :
    ∃ kb mb ev lm lw u d l r mode f sp cr ut,
      process st i =
        { stateMachine { st with tickEvents := [] } i with
          kbd := kb, mouseBtns := mb, tickEvents := ev, lastMouse := lm,
          lastMouseWheel := lw, upPressed := u, downPressed := d,
          leftPressed := l, rightPressed := r, mcMode := mode,
          mcFlyingdownReq := f, mcSprintingReq := sp, mcCrouchingReq := cr,
          mcUtilityReq := ut,
          prevZ := i.z, prevDpadL := i.dpadL, prevDpadR := i.dpadR,
          prevDpadU := i.dpadU, prevDpadD := i.dpadD, prevMcTop := i.mcTop,
          prevMcMiddle := i.mcMiddle, prevMcBottom := i.mcBottom } := by
  have h := pShape_mc
    (pShape_kb
      (pShape_js (pShape_refl (stateMachine { st with tickEvents := [] } i))
        (joystickSection_spec i (stateMachine { st with tickEvents := [] } i)))
      (keyboardSection_spec i
        (joystickSection i (stateMachine { st with tickEvents := [] } i))))
    (minecraftSection_spec i
      (keyboardSection i
        (joystickSection i (stateMachine { st with tickEvents := [] } i))))
  obtain ⟨kb, mb, ev, lm, lw, u, d, l, r, mode, f, sp, cr, ut, hh⟩ := h
  unfold process
  dsimp only
  rw [hh]
  exact ⟨kb, mb, ev, lm, lw, u, d, l, r, mode, f, sp, cr, ut, rfl⟩

theorem process_state (st : PCCState) (i : Input) :
    (process st i).state = (stateMachine { st with tickEvents := [] } i).state := by
  obtain ⟨kb, mb, ev, lm, lw, u, d, l, r, mode, f, sp, cr, ut, h⟩ := process_spec st i
  rw [h]

theorem process_timer (st : PCCState) (i : Input) :
    (process st i).timer = (stateMachine { st with tickEvents := [] } i).timer := by
  obtain ⟨kb, mb, ev, lm, lw, u, d, l, r, mode, f, sp, cr, ut, h⟩ := process_spec st i
  rw [h]

theorem process_prev (st : PCCState) (i : Input) :
    (process st i).prevZ = i.z ∧ (process st i).prevDpadL = i.dpadL ∧
    (process st i).prevDpadR = i.dpadR ∧ (process st i).prevDpadU = i.dpadU ∧
    (process st i).prevDpadD = i.dpadD ∧ (process st i).prevMcTop = i.mcTop ∧
    (process st i).prevMcMiddle = i.mcMiddle ∧
    (process st i).prevMcBottom = i.mcBottom := by
  obtain ⟨kb, mb, ev, lm, lw, u, d, l, r, mode, f, sp, cr, ut, h⟩ := process_spec st i
  rw [h]
  exact ⟨rfl, rfl, rfl, rfl, rfl, rfl, rfl, rfl⟩

/-! ### Section guards and flag characterization -/

theorem joystickSection_off (i : Input) (st : PCCState)
    (h : ¬(st.state = .joystick ∨ st.state = .jwaiting)) :
    joystickSection i st = st := by
  unfold joystickSection
  rw [if_neg h]

theorem keyboardSection_off (i : Input) (st : PCCState)
    (h : ¬(st.state = .keyboard ∨ st.state = .kwaitingToJ ∨
           st.state = .kwaitingToMC)) :
    keyboardSection i st = st := by
  unfold keyboardSection
  rw [if_neg h]

theorem minecraftSection_off (i : Input) (st : PCCState)
    (h : ¬st.state = .minecraft) :
    minecraftSection i st = st := by
  unfold minecraftSection
  rw [if_neg h]

theorem joystickSection_state (i : Input) (st : PCCState) :
    (joystickSection i st).state = st.state := by
  obtain ⟨mb, ev, lm, lw, h⟩ := joystickSection_spec i st
  rw [h]

theorem keyboardSection_state (i : Input) (st : PCCState) :
    (keyboardSection i st).state = st.state := by
  obtain ⟨kb, ev, u, d, l, r, h⟩ := keyboardSection_spec i st
  rw [h]

theorem minecraftSection_state (i : Input) (st : PCCState) :
    (minecraftSection i st).state = st.state := by
  obtain ⟨kb, mb, ev, lm, mode, f, sp, cr, ut, h⟩ := minecraftSection_spec i st
  rw [h]

theorem joystickSection_flags (i : Input) (st : PCCState) :
    (joystickSection i st).upPressed = st.upPressed ∧
    (joystickSection i st).downPressed = st.downPressed ∧
    (joystickSection i st).leftPressed = st.leftPressed ∧
    (joystickSection i st).rightPressed = st.rightPressed := by
  obtain ⟨mb, ev, lm, lw, h⟩ := joystickSection_spec i st
  rw [h]
  exact ⟨rfl, rfl, rfl, rfl⟩

theorem minecraftSection_flags (i : Input) (st : PCCState) :
    (minecraftSection i st).upPressed = st.upPressed ∧
    (minecraftSection i st).downPressed = st.downPressed ∧
    (minecraftSection i st).leftPressed = st.leftPressed ∧
    (minecraftSection i st).rightPressed = st.rightPressed := by
  obtain ⟨kb, mb, ev, lm, mode, f, sp, cr, ut, h⟩ := minecraftSection_spec i st
  rw [h]
  exact ⟨rfl, rfl, rfl, rfl⟩

theorem kbLatchX_left (i : Input) (st : PCCState) :
    (kbLatchX i st).leftPressed = decide (i.dx < 0) := by
  unfold kbLatchX pressKey releaseKey
  dsimp only
  split_ifs <;> simp_all <;> omega

theorem kbLatchX_right (i : Input) (st : PCCState) :
    (kbLatchX i st).rightPressed = decide (0 < i.dx) := by
  unfold kbLatchX pressKey releaseKey
  dsimp only
  split_ifs <;> simp_all <;> omega

theorem kbLatchY_up (i : Input) (st : PCCState) :
    (kbLatchY i st).upPressed = decide (i.dy < 0) := by
  unfold kbLatchY pressKey releaseKey
  dsimp only
  split_ifs <;> simp_all <;> omega

theorem kbLatchY_down (i : Input) (st : PCCState) :
    (kbLatchY i st).downPressed = decide (0 < i.dy) := by
  unfold kbLatchY pressKey releaseKey
  dsimp only
  split_ifs <;> simp_all <;> omega

/-- Whenever the keyboard handling block runs, the four latch flags end the
tick determined by the sign of the conditioned deltas alone. -/
theorem keyboardSection_flags_on (i : Input) (st : PCCState)
    (h : st.state = .keyboard ∨ st.state = .kwaitingToJ ∨
         st.state = .kwaitingToMC) :
    (keyboardSection i st).leftPressed = decide (i.dx < 0) ∧
    (keyboardSection i st).rightPressed = decide (0 < i.dx) ∧
    (keyboardSection i st).upPressed = decide (i.dy < 0) ∧
    (keyboardSection i st).downPressed = decide (0 < i.dy) := by
  unfold keyboardSection
  rw [if_pos h]
  obtain ⟨kb, ev, u, d, hY⟩ :=
    kbLatchY_spec i (kbLatchX i (kbC i (kbZ i (kbX i (kbSpace i st)))))
  refine ⟨?_, ?_, ?_, ?_⟩
  · rw [hY]
    exact kbLatchX_left i (kbC i (kbZ i (kbX i (kbSpace i st))))
  · rw [hY]
    exact kbLatchX_right i (kbC i (kbZ i (kbX i (kbSpace i st))))
  · exact kbLatchY_up i (kbLatchX i (kbC i (kbZ i (kbX i (kbSpace i st)))))
  · exact kbLatchY_down i (kbLatchX i (kbC i (kbZ i (kbX i (kbSpace i st)))))

/-- The state machine block either leaves the four latch flags alone or
clears all four (on the confirm-exit-to-KEYBOARD transitions). -/
theorem stateMachine_flags (st : PCCState) (i : Input) :
    ((stateMachine st i).upPressed = st.upPressed ∧
     (stateMachine st i).downPressed = st.downPressed ∧
     (stateMachine st i).leftPressed = st.leftPressed ∧
     (stateMachine st i).rightPressed = st.rightPressed) ∨
    ((stateMachine st i).upPressed = false ∧
     (stateMachine st i).downPressed = false ∧
     (stateMachine st i).leftPressed = false ∧
     (stateMachine st i).rightPressed = false) := by
  cases hst : st.state
  case unwired =>
    rw [stateMachine_eq_unwired st i hst]
    split_ifs <;> exact Or.inl ⟨rfl, rfl, rfl, rfl⟩
  case waiting =>
    rw [stateMachine_eq_waiting st i hst]
    split_ifs <;> exact Or.inl ⟨rfl, rfl, rfl, rfl⟩
  case joystick =>
    rw [stateMachine_eq_joystick st i hst]
    split_ifs <;> exact Or.inl ⟨rfl, rfl, rfl, rfl⟩
  case jwaiting =>
    rw [stateMachine_eq_jwaiting st i hst]
    split_ifs
    · exact Or.inl ⟨rfl, rfl, rfl, rfl⟩
    · obtain ⟨mb, ev, h⟩ := releaseJoystickHID_spec { st with state := .keyboard }
      rw [h]
      exact Or.inl ⟨rfl, rfl, rfl, rfl⟩
    · exact Or.inl ⟨rfl, rfl, rfl, rfl⟩
  case keyboard =>
    rw [stateMachine_eq_keyboard st i hst]
    split_ifs <;> exact Or.inl ⟨rfl, rfl, rfl, rfl⟩
  case kwaitingToJ =>
    rw [stateMachine_eq_kwaitingToJ st i hst]
    split_ifs
    · exact Or.inr ⟨rfl, rfl, rfl, rfl⟩
    · obtain ⟨kb, ev, h⟩ := releaseKeyboardHID_spec { st with state := .joystick }
      rw [h]
      exact Or.inl ⟨rfl, rfl, rfl, rfl⟩
    · exact Or.inl ⟨rfl, rfl, rfl, rfl⟩
  case kwaitingToMC =>
    rw [stateMachine_eq_kwaitingToMC st i hst]
    split_ifs
    · exact Or.inr ⟨rfl, rfl, rfl, rfl⟩
    · obtain ⟨kb, ev, h⟩ := releaseKeyboardHID_spec { st with state := .minecraft }
      rw [h]
      exact Or.inl ⟨rfl, rfl, rfl, rfl⟩
    · exact Or.inl ⟨rfl, rfl, rfl, rfl⟩
  case minecraft =>
    rw [stateMachine_eq_minecraft st i hst]
    split_ifs <;> exact Or.inl ⟨rfl, rfl, rfl, rfl⟩
  case mwaiting =>
    rw [stateMachine_eq_mwaiting st i hst]
    split_ifs
    · exact Or.inl ⟨rfl, rfl, rfl, rfl⟩
    · obtain ⟨kb, mb, ev, h⟩ := releaseMinecraftHID_spec { st with state := .joystick }
      rw [h]
      exact Or.inl ⟨rfl, rfl, rfl, rfl⟩
    · exact Or.inl ⟨rfl, rfl, rfl, rfl⟩

/-- After any tick the four latch flags are either the sign-determined
values of this tick's deltas, or the previous flags, or all cleared. -/
theorem process_flags (st : PCCState) (i : Input) :
    ((process st i).leftPressed = decide (i.dx < 0) ∧
     (process st i).rightPressed = decide (0 < i.dx) ∧
     (process st i).upPressed = decide (i.dy < 0) ∧
     (process st i).downPressed = decide (0 < i.dy)) ∨
    ((process st i).leftPressed = st.leftPressed ∧
     (process st i).rightPressed = st.rightPressed ∧
     (process st i).upPressed = st.upPressed ∧
     (process st i).downPressed = st.downPressed) ∨
    ((process st i).leftPressed = false ∧
     (process st i).rightPressed = false ∧
     (process st i).upPressed = false ∧
     (process st i).downPressed = false) := by
  unfold process
  dsimp only
  by_cases hg : (joystickSection i
      (stateMachine { st with tickEvents := [] } i)).state = .keyboard ∨
    (joystickSection i
      (stateMachine { st with tickEvents := [] } i)).state = .kwaitingToJ ∨
    (joystickSection i
      (stateMachine { st with tickEvents := [] } i)).state = .kwaitingToMC
  · left
    have hkb := keyboardSection_flags_on i
      (joystickSection i (stateMachine { st with tickEvents := [] } i)) hg
    have hmc := minecraftSection_flags i
      (keyboardSection i
        (joystickSection i (stateMachine { st with tickEvents := [] } i)))
    exact ⟨by rw [show (minecraftSection i (keyboardSection i (joystickSection i
        (stateMachine { st with tickEvents := [] } i)))).leftPressed =
        _ from hmc.2.2.1, hkb.1],
      by rw [show (minecraftSection i (keyboardSection i (joystickSection i
        (stateMachine { st with tickEvents := [] } i)))).rightPressed =
        _ from hmc.2.2.2, hkb.2.1],
      by rw [show (minecraftSection i (keyboardSection i (joystickSection i
        (stateMachine { st with tickEvents := [] } i)))).upPressed =
        _ from hmc.1, hkb.2.2.1],
      by rw [show (minecraftSection i (keyboardSection i (joystickSection i
        (stateMachine { st with tickEvents := [] } i)))).downPressed =
        _ from hmc.2.1, hkb.2.2.2]⟩
  · have hkb : keyboardSection i
        (joystickSection i (stateMachine { st with tickEvents := [] } i)) =
        joystickSection i (stateMachine { st with tickEvents := [] } i) :=
      keyboardSection_off _ _ hg
    have hjs := joystickSection_flags i (stateMachine { st with tickEvents := [] } i)
    have hmc := minecraftSection_flags i
      (keyboardSection i
        (joystickSection i (stateMachine { st with tickEvents := [] } i)))
    rw [hkb] at hmc
    have hfl := stateMachine_flags { st with tickEvents := [] } i
    rcases hfl with ⟨h1, h2, h3, h4⟩ | ⟨h1, h2, h3, h4⟩
    · refine Or.inr (Or.inl ⟨?_, ?_, ?_, ?_⟩) <;>
        rw [hkb] <;>
        [rw [show _ = _ from hmc.2.2.1, hjs.2.2.1, h3];
         rw [show _ = _ from hmc.2.2.2, hjs.2.2.2, h4];
         rw [show _ = _ from hmc.1, hjs.1, h1];
         rw [show _ = _ from hmc.2.1, hjs.2.1, h2]]
    · refine Or.inr (Or.inr ⟨?_, ?_, ?_, ?_⟩) <;>
        rw [hkb] <;>
        [rw [show _ = _ from hmc.2.2.1, hjs.2.2.1, h3];
         rw [show _ = _ from hmc.2.2.2, hjs.2.2.2, h4];
         rw [show _ = _ from hmc.1, hjs.1, h1];
         rw [show _ = _ from hmc.2.1, hjs.2.1, h2]]

/-! ### Claim C4: UNWIRED / SETTLING behaviour -/

/-- C4: starting in UNWIRED, the machine remains in UNWIRED on every tick
with a nonzero axis delta; when both deltas are zero it moves to SETTLING
(`_WAITING`) and records the timer; from SETTLING, any tick with a nonzero
delta returns it to UNWIRED (never directly to MOUSE), and it reaches
MOUSE (`_JOYSTICK`) exactly when more than 0.5 s have elapsed since
entering SETTLING with the deltas continuously zero. -/
theorem unwired_settling_behavior (st : PCCState) (i : Input) :
    ((st.state = .unwired ∧ (i.dx ≠ 0 ∨ i.dy ≠ 0)) →
        (process st i).state = .unwired) ∧
    ((st.state = .unwired ∧ i.dx = 0 ∧ i.dy = 0) →
        (process st i).state = .waiting ∧ (process st i).timer = i.now) ∧
    ((st.state = .waiting ∧ (i.dx ≠ 0 ∨ i.dy ≠ 0)) →
        (process st i).state = .unwired) ∧
    ((st.state = .waiting ∧ i.dx = 0 ∧ i.dy = 0 ∧ i.now - st.timer ≤ 1/2) →
        (process st i).state = .waiting ∧ (process st i).timer = st.timer) ∧
    ((st.state = .waiting ∧ i.dx = 0 ∧ i.dy = 0 ∧ i.now - st.timer > 1/2) →
        (process st i).state = .joystick) := by
  refine ⟨?_, ?_, ?_, ?_, ?_⟩
  · rintro ⟨hs, hd⟩
    rw [process_state, stateMachine_eq_unwired { st with tickEvents := [] } i hs]
    rw [if_neg (by tauto)]
    exact hs
  · rintro ⟨hs, hx, hy⟩
    rw [process_state, process_timer, stateMachine_eq_unwired { st with tickEvents := [] } i hs,
      if_pos ⟨hx, hy⟩]
    exact ⟨rfl, rfl⟩
  · rintro ⟨hs, hd⟩
    rw [process_state, stateMachine_eq_waiting { st with tickEvents := [] } i hs, if_pos hd]
  · rintro ⟨hs, hx, hy, ht⟩
    rw [process_state, process_timer, stateMachine_eq_waiting { st with tickEvents := [] } i hs,
      if_neg (by tauto), if_neg (by exact not_lt.mpr ht)]
    exact ⟨hs, rfl⟩
  · rintro ⟨hs, hx, hy, ht⟩
    rw [process_state, stateMachine_eq_waiting { st with tickEvents := [] } i hs, if_neg (by tauto),
      if_pos ht]

/-- Witness for C4 at concrete inputs: from a fresh controller (UNWIRED), a
tick with `dx = 3` stays UNWIRED; a tick with zero deltas enters SETTLING
recording the clock; and from SETTLING with zero deltas 0.6 s later the
machine reaches MOUSE. -/
theorem unwired_settling_behavior_witness :
    (CommandCenter.process
        (initState 0 ⟨false, false, false, false, false, false, false, false⟩)
        { now := 1, dx := 3, dy := 0, z := false, dpadL := false,
          dpadR := false, dpadU := false, dpadD := false, mcTop := false,
          mcMiddle := false, mcBottom := false }).state = .unwired ∧
    (CommandCenter.process
        { initState 0 ⟨false, false, false, false, false, false, false, false⟩
            with state := .waiting, timer := 1 }
        { now := 8/5, dx := 0, dy := 0, z := false, dpadL := false,
          dpadR := false, dpadU := false, dpadD := false, mcTop := false,
          mcMiddle := false, mcBottom := false }).state = .joystick := by
  constructor
  · exact (unwired_settling_behavior _ _).1 ⟨rfl, Or.inl (by decide)⟩
  · exact (unwired_settling_behavior _ _).2.2.2.2 ⟨rfl, rfl, rfl, by norm_num⟩

/-! ### Claim C10: latch flags are pairwise exclusive per axis -/

/-- C10: in every state reachable by repeated calls to `process()` from the
initial state, `left_pressed` and `right_pressed` are never both true, and
`up_pressed` and `down_pressed` are never both true. -/
theorem latch_flags_exclusive (st : PCCState) (h : Reachable st) :
    ¬(st.leftPressed = true ∧ st.rightPressed = true) ∧
    ¬(st.upPressed = true ∧ st.downPressed = true) := by
  induction h with
  | init t0 lv => exact ⟨by simp [initState], by simp [initState]⟩
  | step hr i ih =>
    rename_i st0
    rcases process_flags st0 i with ⟨h1, h2, h3, h4⟩ | ⟨h1, h2, h3, h4⟩ |
      ⟨h1, h2, h3, h4⟩
    · constructor
      · rintro ⟨ha, hb⟩
        rw [h1] at ha
        rw [h2] at hb
        simp only [decide_eq_true_eq] at ha hb
        omega
      · rintro ⟨ha, hb⟩
        rw [h3] at ha
        rw [h4] at hb
        simp only [decide_eq_true_eq] at ha hb
        omega
    · constructor
      · rintro ⟨ha, hb⟩
        exact ih.1 ⟨h1 ▸ ha, h2 ▸ hb⟩
      · rintro ⟨ha, hb⟩
        exact ih.2 ⟨h3 ▸ ha, h4 ▸ hb⟩
    · constructor
      · rintro ⟨ha, hb⟩
        rw [h1] at ha
        exact absurd ha (by simp)
      · rintro ⟨ha, hb⟩
        rw [h3] at ha
        exact absurd ha (by simp)

theorem latch_flags_exclusive_witness :
    ¬((initState 0 ⟨false, false, false, false, false, false, false,
        false⟩).leftPressed = true ∧
      (initState 0 ⟨false, false, false, false, false, false, false,
        false⟩).rightPressed = true) ∧
    ¬((initState 0 ⟨false, false, false, false, false, false, false,
        false⟩).upPressed = true ∧
      (initState 0 ⟨false, false, false, false, false, false, false,
        false⟩).downPressed = true) :=
  latch_flags_exclusive _
    (Reachable.init 0 ⟨false, false, false, false, false, false, false, false⟩)

/-! ### Claim C2: re-entering KEYBOARD from a confirm-exit state -/

theorem pressedEvt_self (b : Bool) : pressedEvt b b = false := by
  cases b <;> rfl

theorem releasedEvt_self (b : Bool) : releasedEvt b b = false := by
  cases b <;> rfl

theorem kbSpace_id (i : Input) (st : PCCState) (h : i.dpadU = st.prevDpadU) :
    kbSpace i st = st := by
  unfold kbSpace
  rw [h, pressedEvt_self, releasedEvt_self]
  simp

theorem kbX_id (i : Input) (st : PCCState) (h : i.dpadD = st.prevDpadD) :
    kbX i st = st := by
  unfold kbX
  rw [h, pressedEvt_self, releasedEvt_self]
  simp

theorem kbZ_id (i : Input) (st : PCCState) (h : i.dpadL = st.prevDpadL) :
    kbZ i st = st := by
  unfold kbZ
  rw [h, pressedEvt_self, releasedEvt_self]
  simp

theorem kbC_id (i : Input) (st : PCCState) (h : i.dpadR = st.prevDpadR) :
    kbC i st = st := by
  unfold kbC
  rw [h, pressedEvt_self, releasedEvt_self]
  simp

/-- With a zero `dx` and both x latch flags already clear, the dx latch
logic does nothing — in particular it does NOT release the arrow keys. -/
theorem kbLatchX_id (i : Input) (st : PCCState) (h0 : i.dx = 0)
    (hl : st.leftPressed = false) (hr : st.rightPressed = false) :
    kbLatchX i st = st := by
  unfold kbLatchX
  rw [if_pos h0]
  dsimp only
  rw [if_neg (by simp [hl, hr]), if_neg (by simp [hl])]

theorem kbLatchY_id (i : Input) (st : PCCState) (h0 : i.dy = 0)
    (hu : st.upPressed = false) (hd : st.downPressed = false) :
    kbLatchY i st = st := by
  unfold kbLatchY
  rw [if_pos h0]
  dsimp only
  rw [if_neg (by simp [hu, hd]), if_neg (by simp [hu])]

/-- C2 counterexample trace: settle into MOUSE, switch to KEYBOARD, press
the stick left (latching LEFT_ARROW), start a confirm-exit, then release
the joystick button on a tick where the stick has re-centered. -/
@[reducible] def c2Input (now : ℚ) (dx : ℤ) (z : Bool) : Input :=
  { now := now, dx := dx, dy := 0, z := z, dpadL := false, dpadR := false,
    dpadU := false, dpadD := false, mcTop := false, mcMiddle := false,
    mcBottom := false }

@[reducible] def c2Trace : List Input :=
  [c2Input 1 0 false, c2Input 2 0 false, c2Input 3 0 true, c2Input 5 0 true,
   c2Input 6 (-5) false, c2Input 7 (-5) true, c2Input 8 0 false]

@[reducible] def c2Start : PCCState :=
  initState 0 ⟨false, false, false, false, false, false, false, false⟩

/-- The intermediate states of the C2 counterexample trace. -/
@[reducible] def c2S1 : PCCState := { c2Start with state := .waiting, timer := 1 }

@[reducible] def c2S2 : PCCState :=
  { c2Start with state := .joystick, timer := 1, lastMouse := 2,
                 lastMouseWheel := 2,
                 tickEvents := [.mouseMove 0 0 0, .mouseMove 0 0 0] }

@[reducible] def c2S3 : PCCState :=
  { c2Start with state := .jwaiting, timer := 3, lastMouse := 3,
                 lastMouseWheel := 3, prevZ := true,
                 tickEvents := [.mouseMove 0 0 0, .mouseMove 0 0 0] }

@[reducible] def c2S4 : PCCState :=
  { c2Start with state := .keyboard, timer := 3, lastMouse := 3,
                 lastMouseWheel := 3, prevZ := true,
                 tickEvents := [.mouseRelease .left, .mouseRelease .right] }

@[reducible] def c2S5 : PCCState :=
  { c2Start with state := .keyboard, timer := 3, lastMouse := 3,
                 lastMouseWheel := 3, leftPressed := true,
                 kbd := [Keycode.leftArrow],
                 tickEvents := [.keyPress .leftArrow] }

@[reducible] def c2S6 : PCCState :=
  { c2Start with state := .kwaitingToJ, timer := 7, lastMouse := 3,
                 lastMouseWheel := 3, leftPressed := true,
                 kbd := [Keycode.leftArrow], prevZ := true }

@[reducible] def c2S7 : PCCState :=
  { c2Start with state := .keyboard, timer := 7, lastMouse := 3,
                 lastMouseWheel := 3, kbd := [Keycode.leftArrow] }

theorem c2_step1 : process c2Start (c2Input 1 0 false) = c2S1 := by
  unfold process
  dsimp only
  rw [stateMachine_eq_unwired { c2Start with tickEvents := [] }
    (c2Input 1 0 false) rfl]
  rw [if_pos (⟨rfl, rfl⟩ :
    (c2Input 1 0 false).dx = 0 ∧ (c2Input 1 0 false).dy = 0)]
  rw [joystickSection_off _ _ (by decide), keyboardSection_off _ _ (by decide),
    minecraftSection_off _ _ (by decide)]
  rfl

theorem c2_step2 : process c2S1 (c2Input 2 0 false) = c2S2 := by
  unfold process
  dsimp only
  rw [stateMachine_eq_waiting _ (c2Input 2 0 false) rfl]
  rw [if_neg (by decide),
    if_pos (by norm_num [c2Input, c2S1, c2Start, initState])]
  unfold joystickSection
  rw [if_pos (Or.inl rfl)]
  unfold jsMouseMove
  rw [if_pos (by norm_num [c2Input, c2S1, c2Start, initState])]
  unfold jsWheel
  dsimp only
  rw [if_pos (by norm_num [c2Input, c2S1, c2Start, initState, moveMouse])]
  unfold jsLeftButton
  rw [if_neg (by decide), if_neg (by decide)]
  unfold jsRightButton
  rw [if_neg (by decide), if_neg (by decide)]
  rw [keyboardSection_off _ _ (by decide), minecraftSection_off _ _ (by decide)]
  rfl

theorem c2_step3 : process c2S2 (c2Input 3 0 true) = c2S3 := by
  unfold process
  dsimp only
  rw [stateMachine_eq_joystick _ (c2Input 3 0 true) rfl]
  rw [if_pos rfl]
  unfold joystickSection
  rw [if_pos (Or.inr rfl)]
  unfold jsMouseMove
  rw [if_pos (by norm_num [c2Input, c2S2, c2Start, initState])]
  unfold jsWheel
  dsimp only
  rw [if_pos (by norm_num [c2Input, c2S2, c2Start, initState, moveMouse])]
  unfold jsLeftButton
  rw [if_neg (by decide), if_neg (by decide)]
  unfold jsRightButton
  rw [if_neg (by decide), if_neg (by decide)]
  rw [keyboardSection_off _ _ (by decide), minecraftSection_off _ _ (by decide)]
  rfl

theorem c2_step4 : process c2S3 (c2Input 5 0 true) = c2S4 := by
  unfold process
  dsimp only
  rw [stateMachine_eq_jwaiting _ (c2Input 5 0 true) rfl]
  rw [if_neg (by decide),
    if_pos (by norm_num [c2Input, c2S3, c2Start, initState])]
  rw [joystickSection_off _ _ (by decide)]
  unfold keyboardSection
  rw [if_pos (Or.inl (by decide))]
  rw [kbSpace_id _ _ rfl, kbX_id _ _ rfl, kbZ_id _ _ rfl, kbC_id _ _ rfl]
  rw [kbLatchX_id _ _ rfl rfl rfl, kbLatchY_id _ _ rfl rfl rfl]
  rw [minecraftSection_off _ _ (by decide)]
  rfl

theorem c2_step5 : process c2S4 (c2Input 6 (-5) false) = c2S5 := by
  unfold process
  dsimp only
  rw [stateMachine_eq_keyboard _ (c2Input 6 (-5) false) rfl]
  rw [if_neg (by decide), if_neg (by decide)]
  rw [joystickSection_off _ _ (by decide)]
  unfold keyboardSection
  rw [if_pos (Or.inl rfl)]
  rw [kbSpace_id _ _ rfl, kbX_id _ _ rfl, kbZ_id _ _ rfl, kbC_id _ _ rfl]
  unfold kbLatchX
  rw [if_neg (by decide), if_neg (by decide)]
  dsimp only
  rw [if_neg (by decide), if_pos (by decide)]
  rw [kbLatchY_id _ _ rfl rfl rfl]
  rw [minecraftSection_off _ _ (by decide)]
  rfl

theorem c2_step6 : process c2S5 (c2Input 7 (-5) true) = c2S6 := by
  unfold process
  dsimp only
  rw [stateMachine_eq_keyboard _ (c2Input 7 (-5) true) rfl]
  rw [if_pos (by decide)]
  rw [joystickSection_off _ _ (by decide)]
  unfold keyboardSection
  rw [if_pos (Or.inr (Or.inl rfl))]
  rw [kbSpace_id _ _ rfl, kbX_id _ _ rfl, kbZ_id _ _ rfl, kbC_id _ _ rfl]
  unfold kbLatchX
  rw [if_neg (by decide), if_neg (by decide)]
  dsimp only
  rw [if_neg (by decide), if_neg (by decide)]
  rw [kbLatchY_id _ _ rfl rfl rfl]
  rw [minecraftSection_off _ _ (by decide)]
  rfl

theorem c2_step7 : process c2S6 (c2Input 8 0 false) = c2S7 := by
  unfold process
  dsimp only
  rw [stateMachine_eq_kwaitingToJ _ (c2Input 8 0 false) rfl]
  rw [if_pos (by decide)]
  rw [joystickSection_off _ _ (by decide)]
  unfold keyboardSection
  rw [if_pos (Or.inl rfl)]
  rw [kbSpace_id _ _ rfl, kbX_id _ _ rfl, kbZ_id _ _ rfl, kbC_id _ _ rfl]
  rw [kbLatchX_id _ _ rfl rfl rfl, kbLatchY_id _ _ rfl rfl rfl]
  rw [minecraftSection_off _ _ (by decide)]
  rfl

/-- C2 counterexample: on the trace `c2Trace` from a fresh controller, the
machine is in `_KWAITING_TO_J` with LEFT_ARROW latched and pressed before
the last tick; the last tick (joystick button released, stick centered)
re-enters KEYBOARD and clears all four latch flags — yet LEFT_ARROW is
still pressed on the HID keyboard.  This refutes "the corresponding
UP/DOWN/LEFT/RIGHT arrow keys are released on the HID keyboard, so no
arrow key remains pressed while its latch flag is false". -/
theorem keyboard_reentry_stuck_key_counterexample :
    (runTicks c2Start (c2Trace.take 6)).state = .kwaitingToJ ∧
    (runTicks c2Start (c2Trace.take 6)).leftPressed = true ∧
    (runTicks c2Start c2Trace).state = .keyboard ∧
    (runTicks c2Start c2Trace).leftPressed = false ∧
    (runTicks c2Start c2Trace).rightPressed = false ∧
    (runTicks c2Start c2Trace).upPressed = false ∧
    (runTicks c2Start c2Trace).downPressed = false ∧
    (runTicks c2Start c2Trace).kbd = [Keycode.leftArrow] := by
  have h6 : runTicks c2Start (c2Trace.take 6) = c2S6 := by
    show process (process (process (process (process (process c2Start
      (c2Input 1 0 false)) (c2Input 2 0 false)) (c2Input 3 0 true))
      (c2Input 5 0 true)) (c2Input 6 (-5) false)) (c2Input 7 (-5) true) = c2S6
    rw [c2_step1, c2_step2, c2_step3, c2_step4, c2_step5, c2_step6]
  have h7 : runTicks c2Start c2Trace = c2S7 := by
    show process (process (process (process (process (process (process c2Start
      (c2Input 1 0 false)) (c2Input 2 0 false)) (c2Input 3 0 true))
      (c2Input 5 0 true)) (c2Input 6 (-5) false)) (c2Input 7 (-5) true))
      (c2Input 8 0 false) = c2S7
    rw [c2_step1, c2_step2, c2_step3, c2_step4, c2_step5, c2_step6, c2_step7]
  rw [h6, h7]
  exact ⟨rfl, rfl, rfl, rfl, rfl, rfl, rfl, rfl⟩

theorem kbSpace_flags (i : Input) (st : PCCState) :
    (kbSpace i st).upPressed = st.upPressed ∧
    (kbSpace i st).downPressed = st.downPressed ∧
    (kbSpace i st).leftPressed = st.leftPressed ∧
    (kbSpace i st).rightPressed = st.rightPressed := by
  obtain ⟨kb, ev, h⟩ := kbSpace_spec i st
  rw [h]
  exact ⟨rfl, rfl, rfl, rfl⟩

theorem kbX_flags (i : Input) (st : PCCState) :
    (kbX i st).upPressed = st.upPressed ∧
    (kbX i st).downPressed = st.downPressed ∧
    (kbX i st).leftPressed = st.leftPressed ∧
    (kbX i st).rightPressed = st.rightPressed := by
  obtain ⟨kb, ev, h⟩ := kbX_spec i st
  rw [h]
  exact ⟨rfl, rfl, rfl, rfl⟩

theorem kbZ_flags (i : Input) (st : PCCState) :
    (kbZ i st).upPressed = st.upPressed ∧
    (kbZ i st).downPressed = st.downPressed ∧
    (kbZ i st).leftPressed = st.leftPressed ∧
    (kbZ i st).rightPressed = st.rightPressed := by
  obtain ⟨kb, ev, h⟩ := kbZ_spec i st
  rw [h]
  exact ⟨rfl, rfl, rfl, rfl⟩

theorem kbC_flags (i : Input) (st : PCCState) :
    (kbC i st).upPressed = st.upPressed ∧
    (kbC i st).downPressed = st.downPressed ∧
    (kbC i st).leftPressed = st.leftPressed ∧
    (kbC i st).rightPressed = st.rightPressed := by
  obtain ⟨kb, ev, h⟩ := kbC_spec i st
  rw [h]
  exact ⟨rfl, rfl, rfl, rfl⟩

/-! ### Keyboard-block membership lemmas -/

theorem kbSpace_mem (i : Input) (st : PCCState) (k : Keycode)
    (h : k ≠ .space) : k ∈ (kbSpace i st).kbd ↔ k ∈ st.kbd := by
  unfold kbSpace
  split_ifs <;> simp [mem_pressKey, mem_releaseKey, h]

theorem kbX_mem (i : Input) (st : PCCState) (k : Keycode)
    (h : k ≠ .x) : k ∈ (kbX i st).kbd ↔ k ∈ st.kbd := by
  unfold kbX
  split_ifs <;> simp [mem_pressKey, mem_releaseKey, h]

theorem kbZ_mem (i : Input) (st : PCCState) (k : Keycode)
    (h : k ≠ .z) : k ∈ (kbZ i st).kbd ↔ k ∈ st.kbd := by
  unfold kbZ
  split_ifs <;> simp [mem_pressKey, mem_releaseKey, h]

theorem kbC_mem (i : Input) (st : PCCState) (k : Keycode)
    (h : k ≠ .c) : k ∈ (kbC i st).kbd ↔ k ∈ st.kbd := by
  unfold kbC
  split_ifs <;> simp [mem_pressKey, mem_releaseKey, h]

theorem kbLatchX_mem (i : Input) (st : PCCState) (k : Keycode)
    (h1 : k ≠ .leftArrow) (h2 : k ≠ .rightArrow) :
    k ∈ (kbLatchX i st).kbd ↔ k ∈ st.kbd := by
  unfold kbLatchX
  dsimp only
  split_ifs <;> simp [mem_pressKey, mem_releaseKey, h1, h2]

theorem kbLatchY_mem (i : Input) (st : PCCState) (k : Keycode)
    (h1 : k ≠ .upArrow) (h2 : k ≠ .downArrow) :
    k ∈ (kbLatchY i st).kbd ↔ k ∈ st.kbd := by
  unfold kbLatchY
  dsimp only
  split_ifs <;> simp [mem_pressKey, mem_releaseKey, h1, h2]

/-- Whenever the keyboard handling block runs, the latch flags afterwards
are determined by this tick's deltas alone (stated on `process`). -/
theorem process_flags_on (st : PCCState) (i : Input)
    (hg : (stateMachine { st with tickEvents := [] } i).state = .keyboard ∨
          (stateMachine { st with tickEvents := [] } i).state = .kwaitingToJ ∨
          (stateMachine { st with tickEvents := [] } i).state = .kwaitingToMC) :
    (process st i).leftPressed = decide (i.dx < 0) ∧
    (process st i).rightPressed = decide (0 < i.dx) ∧
    (process st i).upPressed = decide (i.dy < 0) ∧
    (process st i).downPressed = decide (0 < i.dy) := by
  unfold process
  dsimp only
  have hg2 : (joystickSection i
      (stateMachine { st with tickEvents := [] } i)).state = .keyboard ∨
    (joystickSection i
      (stateMachine { st with tickEvents := [] } i)).state = .kwaitingToJ ∨
    (joystickSection i
      (stateMachine { st with tickEvents := [] } i)).state = .kwaitingToMC := by
    rw [joystickSection_state]
    exact hg
  have hkb := keyboardSection_flags_on i
    (joystickSection i (stateMachine { st with tickEvents := [] } i)) hg2
  have hmc := minecraftSection_flags i
    (keyboardSection i
      (joystickSection i (stateMachine { st with tickEvents := [] } i)))
  exact ⟨by rw [show (minecraftSection i (keyboardSection i (joystickSection i
      (stateMachine { st with tickEvents := [] } i)))).leftPressed =
      _ from hmc.2.2.1, hkb.1],
    by rw [show (minecraftSection i (keyboardSection i (joystickSection i
      (stateMachine { st with tickEvents := [] } i)))).rightPressed =
      _ from hmc.2.2.2, hkb.2.1],
    by rw [show (minecraftSection i (keyboardSection i (joystickSection i
      (stateMachine { st with tickEvents := [] } i)))).upPressed =
      _ from hmc.1, hkb.2.2.1],
    by rw [show (minecraftSection i (keyboardSection i (joystickSection i
      (stateMachine { st with tickEvents := [] } i)))).downPressed =
      _ from hmc.2.1, hkb.2.2.2]⟩

/-- C2 amended: when a keyboard confirm-exit state returns to KEYBOARD
(joystick button released, or the modifier state change for the respective
state), the four latch flags are cleared by the transition and then
recomputed from this tick's deltas (left ⟺ dx<0, right ⟺ dx>0, up ⟺ dy<0,
down ⟺ dy>0); the arrow keys themselves are NOT released by the
transition: with both deltas zero and no DPad edge this tick, the pressed
set of the HID keyboard is unchanged, so a previously pressed arrow key
remains pressed while its latch flag is false. -/
theorem keyboard_reentry_clears_flags_only (st : PCCState) (i : Input)
    (h : (st.state = .kwaitingToJ ∧ (i.z = false ∨ i.mcBottom = true)) ∨
         (st.state = .kwaitingToMC ∧ (i.z = false ∨ i.mcBottom = false))) :
    (process st i).state = .keyboard ∧
    (process st i).leftPressed = decide (i.dx < 0) ∧
    (process st i).rightPressed = decide (0 < i.dx) ∧
    (process st i).upPressed = decide (i.dy < 0) ∧
    (process st i).downPressed = decide (0 < i.dy) ∧
    (i.dx = 0 → i.dy = 0 → i.dpadL = st.prevDpadL → i.dpadR = st.prevDpadR →
      i.dpadU = st.prevDpadU → i.dpadD = st.prevDpadD →
      (process st i).kbd = st.kbd) := by
  have hsm : stateMachine { st with tickEvents := [] } i =
      { st with tickEvents := [], state := .keyboard, upPressed := false,
                downPressed := false, leftPressed := false,
                rightPressed := false } := by
    rcases h with ⟨hs, hc⟩ | ⟨hs, hc⟩
    · rw [stateMachine_eq_kwaitingToJ { st with tickEvents := [] } i hs]
      rw [if_pos (show (!i.z || i.mcBottom) = true by
        rcases hc with h1 | h1 <;> simp [h1])]
    · rw [stateMachine_eq_kwaitingToMC { st with tickEvents := [] } i hs]
      rw [if_pos (show (!i.z || !i.mcBottom) = true by
        rcases hc with h1 | h1 <;> simp [h1])]
  refine ⟨?_, ?_, ?_, ?_, ?_, ?_⟩
  · rw [process_state, hsm]
  · exact (process_flags_on st i (by rw [hsm]; exact Or.inl rfl)).1
  · exact (process_flags_on st i (by rw [hsm]; exact Or.inl rfl)).2.1
  · exact (process_flags_on st i (by rw [hsm]; exact Or.inl rfl)).2.2.1
  · exact (process_flags_on st i (by rw [hsm]; exact Or.inl rfl)).2.2.2
  · intro hdx hdy hL hR hU hD
    unfold process
    dsimp only
    rw [hsm]
    rw [joystickSection_off _ _ (by simp)]
    unfold keyboardSection
    rw [if_pos (Or.inl rfl)]
    have hU' : i.dpadU =
        ({ st with tickEvents := [], state := MState.keyboard,
                   upPressed := false, downPressed := false,
                   leftPressed := false,
                   rightPressed := false } : PCCState).prevDpadU := hU
    have hD' : i.dpadD =
        ({ st with tickEvents := [], state := MState.keyboard,
                   upPressed := false, downPressed := false,
                   leftPressed := false,
                   rightPressed := false } : PCCState).prevDpadD := hD
    have hL' : i.dpadL =
        ({ st with tickEvents := [], state := MState.keyboard,
                   upPressed := false, downPressed := false,
                   leftPressed := false,
                   rightPressed := false } : PCCState).prevDpadL := hL
    have hR' : i.dpadR =
        ({ st with tickEvents := [], state := MState.keyboard,
                   upPressed := false, downPressed := false,
                   leftPressed := false,
                   rightPressed := false } : PCCState).prevDpadR := hR
    rw [kbSpace_id _ _ hU', kbX_id _ _ hD', kbZ_id _ _ hL', kbC_id _ _ hR']
    rw [kbLatchX_id _ _ hdx rfl rfl, kbLatchY_id _ _ hdy rfl rfl]
    rw [minecraftSection_off _ _ (by simp)]

theorem keyboard_reentry_clears_flags_only_witness :
    (process { c2Start with state := .kwaitingToJ, timer := 7,
                            kbd := [Keycode.leftArrow], leftPressed := true }
        (c2Input 9 0 false)).state = .keyboard ∧
    (process { c2Start with state := .kwaitingToJ, timer := 7,
                            kbd := [Keycode.leftArrow], leftPressed := true }
        (c2Input 9 0 false)).leftPressed = false ∧
    (process { c2Start with state := .kwaitingToJ, timer := 7,
                            kbd := [Keycode.leftArrow], leftPressed := true }
        (c2Input 9 0 false)).kbd = [Keycode.leftArrow] := by
  have h := keyboard_reentry_clears_flags_only
    { c2Start with state := .kwaitingToJ, timer := 7,
                   kbd := [Keycode.leftArrow], leftPressed := true }
    (c2Input 9 0 false) (Or.inl ⟨rfl, Or.inl rfl⟩)
  refine ⟨h.1, ?_, h.2.2.2.2.2 rfl rfl rfl rfl rfl rfl⟩
  rw [h.2.1]
  decide

/-! ### Release-helper and section lemmas for mode-exit claims -/

theorem releaseJoystickHID_state (st : PCCState) :
    (releaseJoystickHID st).state = st.state := by
  obtain ⟨mb, ev, h⟩ := releaseJoystickHID_spec st
  rw [h]

theorem releaseKeyboardHID_state (st : PCCState) :
    (releaseKeyboardHID st).state = st.state := by
  obtain ⟨kb, ev, h⟩ := releaseKeyboardHID_spec st
  rw [h]

theorem releaseMinecraftHID_state (st : PCCState) :
    (releaseMinecraftHID st).state = st.state := by
  obtain ⟨kb, mb, ev, h⟩ := releaseMinecraftHID_spec st
  rw [h]

theorem releaseMinecraftHID_prevDpad (st : PCCState) :
    (releaseMinecraftHID st).prevDpadL = st.prevDpadL ∧
    (releaseMinecraftHID st).prevDpadR = st.prevDpadR := by
  obtain ⟨kb, mb, ev, h⟩ := releaseMinecraftHID_spec st
  rw [h]
  exact ⟨rfl, rfl⟩

theorem keyboardSection_mouseBtns (i : Input) (st : PCCState) :
    (keyboardSection i st).mouseBtns = st.mouseBtns := by
  obtain ⟨kb, ev, u, d, l, r, h⟩ := keyboardSection_spec i st
  rw [h]

theorem joystickSection_kbd (i : Input) (st : PCCState) :
    (joystickSection i st).kbd = st.kbd := by
  obtain ⟨mb, ev, lm, lw, h⟩ := joystickSection_spec i st
  rw [h]

theorem mem_releaseJoystickHID (st : PCCState) (b : MouseButton) :
    b ∈ (releaseJoystickHID st).mouseBtns ↔
      (b ∈ st.mouseBtns ∧ b ≠ .left ∧ b ≠ .right) := by
  unfold releaseJoystickHID
  rw [mem_releaseMouse, mem_releaseMouse]
  tauto

theorem mem_releaseKeyboardHID (st : PCCState) (k : Keycode) :
    k ∈ (releaseKeyboardHID st).kbd ↔
      (k ∈ st.kbd ∧ k ≠ .upArrow ∧ k ≠ .downArrow ∧ k ≠ .leftArrow ∧
       k ≠ .rightArrow ∧ k ≠ .space ∧ k ≠ .x ∧ k ≠ .z ∧ k ≠ .c) := by
  unfold releaseKeyboardHID
  rw [mem_releaseKey, mem_releaseKey, mem_releaseKey, mem_releaseKey,
    mem_releaseKey, mem_releaseKey, mem_releaseKey, mem_releaseKey]
  tauto

theorem mem_releaseMinecraftHID_kbd (st : PCCState) (k : Keycode) :
    k ∈ (releaseMinecraftHID st).kbd ↔
      (k ∈ st.kbd ∧ k ≠ .a ∧ k ≠ .control ∧ k ≠ .d ∧ k ≠ .e ∧ k ≠ .escape ∧
       k ≠ .f5 ∧ k ≠ .leftShift ∧ k ≠ .q ∧ k ≠ .s ∧ k ≠ .space ∧
       k ≠ .w) := by
  unfold releaseMinecraftHID
  dsimp only
  rw [mem_releaseKey, mem_releaseKey, mem_releaseKey, mem_releaseKey,
    mem_releaseKey, mem_releaseKey, mem_releaseKey, mem_releaseKey,
    mem_releaseKey, mem_releaseKey, mem_releaseKey]
  have : k ∈ (releaseMouse (releaseMouse (releaseMouse st .left) .middle)
      .right).kbd ↔ k ∈ st.kbd := Iff.rfl
  rw [this]
  tauto

theorem releaseMinecraftHID_mouseBtns (st : PCCState) :
    (releaseMinecraftHID st).mouseBtns = [] := by
  rw [List.eq_nil_iff_forall_not_mem]
  intro b hb
  unfold releaseMinecraftHID at hb
  dsimp only at hb
  have hb2 : b ∈ (releaseMouse (releaseMouse (releaseMouse st .left) .middle)
      .right).mouseBtns := hb
  rw [mem_releaseMouse, mem_releaseMouse, mem_releaseMouse] at hb2
  rcases hb2 with ⟨⟨⟨_, h1⟩, h2⟩, h3⟩
  cases b
  · exact h1 rfl
  · exact h2 rfl
  · exact h3 rfl

theorem jsLeftButton_id (i : Input) (st : PCCState)
    (h : i.dpadL = st.prevDpadL) : jsLeftButton i st = st := by
  unfold jsLeftButton
  rw [h, pressedEvt_self, releasedEvt_self]
  simp

theorem jsRightButton_id (i : Input) (st : PCCState)
    (h : i.dpadR = st.prevDpadR) : jsRightButton i st = st := by
  unfold jsRightButton
  rw [h, pressedEvt_self, releasedEvt_self]
  simp

/-- If neither horizontal DPad button changed this tick, the joystick block
presses/releases no mouse button. -/
theorem joystickSection_mouseBtns_noedge (i : Input) (st : PCCState)
    (hL : i.dpadL = st.prevDpadL) (hR : i.dpadR = st.prevDpadR) :
    (joystickSection i st).mouseBtns = st.mouseBtns := by
  unfold joystickSection
  split_ifs with hg
  · obtain ⟨lm, ev, h1⟩ := jsMouseMove_spec i st
    obtain ⟨lw, ev2, h2⟩ := jsWheel_spec i (jsMouseMove i st)
    have hL2 : i.dpadL = (jsWheel i (jsMouseMove i st)).prevDpadL := by
      rw [h2, h1]
      exact hL
    have hR2 : i.dpadR = (jsLeftButton i (jsWheel i (jsMouseMove i st))).prevDpadR := by
      rw [jsLeftButton_id i _ hL2, h2, h1]
      exact hR
    rw [jsRightButton_id i _ hR2, jsLeftButton_id i _ hL2, h2, h1]
  · rfl

theorem mcCommit_off (i : Input) (st : PCCState)
    (h : releasedEvt st.prevMcBottom i.mcBottom = false) :
    mcCommit i st = st := by
  unfold mcCommit
  rw [h]
  simp

theorem mcNoModifier_off (i : Input) (st : PCCState)
    (h : i.mcBottom = true) : mcNoModifier i st = st := by
  unfold mcNoModifier
  rw [h]
  simp

theorem mcTopMiddle_kbd_mem (i : Input) (st : PCCState) (k : Keycode)
    (hk : k ≠ .q) : k ∈ (mcTopMiddle i st).kbd ↔ k ∈ st.kbd := by
  unfold mcTopMiddle mcTopMiddleDefault mcTopMiddleOther
  dsimp only
  split_ifs <;>
    simp [mem_pressKey, mem_releaseKey, pressMouse, releaseMouse, hk]

/-- While the modifier button is held, the Minecraft handling block can
press or release only the Q key on the HID keyboard. -/
theorem minecraftSection_kbd_bottom (i : Input) (st : PCCState) (k : Keycode)
    (hb : i.mcBottom = true) (hk : k ≠ .q) :
    k ∈ (minecraftSection i st).kbd ↔ k ∈ st.kbd := by
  unfold minecraftSection
  split_ifs with hg
  · have hrel : releasedEvt (mcModifier i st).prevMcBottom i.mcBottom = false := by
      rw [hb]
      rfl
    have hcommit := mcCommit_off i (mcModifier i st) hrel
    rw [mcNoModifier_off i _ hb]
    rw [mcTopMiddle_kbd_mem i _ k hk]
    rw [hcommit]
    obtain ⟨lm, ev, hmm⟩ := mcMouseMove_spec i (mcModifier i st)
    rw [hmm]
    obtain ⟨f, sp, cr, ut, hmod⟩ := mcModifier_spec i st
    rw [hmod]
  · exact Iff.rfl

/-- Reachability invariant: the machine can be in `_MWAITING` only if the
horizontal DPad buttons were (debounced-)pressed at the end of the last
tick — `_MWAITING` is entered and kept only while all four DPad buttons
and the joystick button are held. -/
theorem mwaiting_prev_dpad (st : PCCState) (hreach : Reachable st) :
    st.state = .mwaiting → st.prevDpadL = true ∧ st.prevDpadR = true := by
  induction hreach with
  | init t0 lv =>
    intro hs
    exact absurd hs (by simp [initState])
  | step hr i ih =>
    rename_i st0
    intro hs
    obtain ⟨hz, hl, hr2, hu, hd, _, _, _⟩ := process_prev st0 i
    rw [hl, hr2]
    rw [process_state] at hs
    cases hst : st0.state
    case unwired =>
      rw [stateMachine_eq_unwired { st0 with tickEvents := [] } i hst] at hs
      split_ifs at hs <;>
        first
          | exact absurd (hst.symm.trans hs) (by decide)
          | simp at hs
    case waiting =>
      rw [stateMachine_eq_waiting { st0 with tickEvents := [] } i hst] at hs
      split_ifs at hs <;>
        first
          | exact absurd (hst.symm.trans hs) (by decide)
          | simp at hs
    case joystick =>
      rw [stateMachine_eq_joystick { st0 with tickEvents := [] } i hst] at hs
      split_ifs at hs <;>
        first
          | exact absurd (hst.symm.trans hs) (by decide)
          | simp at hs
    case jwaiting =>
      rw [stateMachine_eq_jwaiting { st0 with tickEvents := [] } i hst] at hs
      split_ifs at hs <;>
        first
          | exact absurd (hst.symm.trans hs) (by decide)
          | (rw [releaseJoystickHID_state] at hs
             simp at hs)
          | simp at hs
    case keyboard =>
      rw [stateMachine_eq_keyboard { st0 with tickEvents := [] } i hst] at hs
      split_ifs at hs <;>
        first
          | exact absurd (hst.symm.trans hs) (by decide)
          | simp at hs
    case kwaitingToJ =>
      rw [stateMachine_eq_kwaitingToJ { st0 with tickEvents := [] } i hst] at hs
      split_ifs at hs <;>
        first
          | exact absurd (hst.symm.trans hs) (by decide)
          | (rw [releaseKeyboardHID_state] at hs
             simp at hs)
          | simp at hs
    case kwaitingToMC =>
      rw [stateMachine_eq_kwaitingToMC { st0 with tickEvents := [] } i hst] at hs
      split_ifs at hs <;>
        first
          | exact absurd (hst.symm.trans hs) (by decide)
          | (rw [releaseKeyboardHID_state] at hs
             simp at hs)
          | simp at hs
    case minecraft =>
      rw [stateMachine_eq_minecraft { st0 with tickEvents := [] } i hst] at hs
      split_ifs at hs with hcond <;>
        first
          | exact absurd (hst.symm.trans hs) (by decide)
          | (simp only [Bool.and_eq_true] at hcond
             exact ⟨hcond.1.2, hcond.2⟩)
          | simp at hs
    case mwaiting =>
      rw [stateMachine_eq_mwaiting { st0 with tickEvents := [] } i hst] at hs
      split_ifs at hs with hcond1 hcond2 <;>
        first
          | (rw [releaseMinecraftHID_state] at hs
             simp at hs)
          | (simp only [Bool.or_eq_true, Bool.not_eq_true', not_or,
               Bool.not_eq_false] at hcond1
             exact ⟨hcond1.1.2, hcond1.2⟩)
          | simp at hs

/-! ### Claim C1: every mode-exit transition releases the HID state of the
mode being left -/

/-- C1: on every tick from a reachable state, the `_JWAITING → _KEYBOARD`
transition leaves the mouse buttons released, the `_KWAITING_TO_J →
_JOYSTICK` and `_KWAITING_TO_MC → _MINECRAFT` timeout transitions leave
all keyboard-mode keys (arrows, SPACE, X, Z, C) released, and the
`_MWAITING → _JOYSTICK` timeout transition leaves all Minecraft-mode HID
state (every mouse button, and the keys A, CONTROL, D, E, ESCAPE, F5,
LEFT_SHIFT, Q, S, SPACE, W) released — all measured at the end of the
transition tick, after the per-mode handling blocks have also run. -/
theorem mode_exit_releases_hid (st : PCCState) (hreach : Reachable st)
    (i : Input) :
    (st.state = .jwaiting → (process st i).state = .keyboard →
      MouseButton.left ∉ (process st i).mouseBtns ∧
      MouseButton.right ∉ (process st i).mouseBtns) ∧
    (st.state = .kwaitingToJ → (process st i).state = .joystick →
      ∀ k : Keycode, (k = .upArrow ∨ k = .downArrow ∨ k = .leftArrow ∨
        k = .rightArrow ∨ k = .space ∨ k = .x ∨ k = .z ∨ k = .c) →
        k ∉ (process st i).kbd) ∧
    (st.state = .kwaitingToMC → (process st i).state = .minecraft →
      ∀ k : Keycode, (k = .upArrow ∨ k = .downArrow ∨ k = .leftArrow ∨
        k = .rightArrow ∨ k = .space ∨ k = .x ∨ k = .z ∨ k = .c) →
        k ∉ (process st i).kbd) ∧
    (st.state = .mwaiting → (process st i).state = .joystick →
      (∀ b : MouseButton, b ∉ (process st i).mouseBtns) ∧
      (∀ k : Keycode, (k = .a ∨ k = .control ∨ k = .d ∨ k = .e ∨
        k = .escape ∨ k = .f5 ∨ k = .leftShift ∨ k = .q ∨ k = .s ∨
        k = .space ∨ k = .w) → k ∉ (process st i).kbd)) := by
  refine ⟨?_, ?_, ?_, ?_⟩
  · intro hs hs'
    rw [process_state, stateMachine_eq_jwaiting { st with tickEvents := [] } i hs] at hs'
    by_cases h1 : (!i.z) = true
    · rw [if_pos h1] at hs'
      exact absurd hs' (by simp)
    · rw [if_neg h1] at hs'
      by_cases h2 : i.now - ({ st with tickEvents := [] } : PCCState).timer > 1
      · constructor <;>
        · unfold process
          dsimp only
          rw [stateMachine_eq_jwaiting { st with tickEvents := [] } i hs,
            if_neg h1, if_pos h2]
          rw [joystickSection_off _ _ (by rw [releaseJoystickHID_state]; simp)]
          rw [minecraftSection_off _ _
            (by rw [keyboardSection_state, releaseJoystickHID_state]; simp)]
          show ¬ _ ∈ (keyboardSection i (releaseJoystickHID
            { st with tickEvents := [], state := .keyboard })).mouseBtns
          rw [keyboardSection_mouseBtns, mem_releaseJoystickHID]
          simp
      · rw [if_neg h2] at hs'
        exact absurd (hs.symm.trans hs') (by decide)
  · intro hs hs' k hk
    rw [process_state, stateMachine_eq_kwaitingToJ { st with tickEvents := [] } i hs] at hs'
    by_cases h1 : (!i.z || i.mcBottom) = true
    · rw [if_pos h1] at hs'
      exact absurd hs' (by simp)
    · rw [if_neg h1] at hs'
      by_cases h2 : i.now - ({ st with tickEvents := [] } : PCCState).timer > 1
      · unfold process
        dsimp only
        rw [stateMachine_eq_kwaitingToJ { st with tickEvents := [] } i hs,
          if_neg h1, if_pos h2]
        rw [minecraftSection_off _ _
          (by rw [keyboardSection_state, joystickSection_state,
            releaseKeyboardHID_state]; simp)]
        rw [keyboardSection_off _ _
          (by rw [joystickSection_state, releaseKeyboardHID_state]; simp)]
        show ¬ k ∈ (joystickSection i (releaseKeyboardHID
          { st with tickEvents := [], state := .joystick })).kbd
        rw [joystickSection_kbd, mem_releaseKeyboardHID]
        rcases hk with rfl | rfl | rfl | rfl | rfl | rfl | rfl | rfl <;> simp
      · rw [if_neg h2] at hs'
        exact absurd (hs.symm.trans hs') (by decide)
  · intro hs hs' k hk
    rw [process_state, stateMachine_eq_kwaitingToMC { st with tickEvents := [] } i hs] at hs'
    by_cases h1 : (!i.z || !i.mcBottom) = true
    · rw [if_pos h1] at hs'
      exact absurd hs' (by simp)
    · rw [if_neg h1] at hs'
      by_cases h2 : i.now - ({ st with tickEvents := [] } : PCCState).timer > 1
      · have hb : i.mcBottom = true := by
          simp only [Bool.or_eq_true, Bool.not_eq_true', not_or,
            Bool.not_eq_false] at h1
          exact h1.2
        unfold process
        dsimp only
        rw [stateMachine_eq_kwaitingToMC { st with tickEvents := [] } i hs,
          if_neg h1, if_pos h2]
        rw [joystickSection_off _ _ (by rw [releaseKeyboardHID_state]; simp)]
        rw [keyboardSection_off _ _ (by rw [releaseKeyboardHID_state]; simp)]
        show ¬ k ∈ (minecraftSection i (releaseKeyboardHID
          { st with tickEvents := [], state := .minecraft })).kbd
        rw [minecraftSection_kbd_bottom _ _ _ hb
          (by rcases hk with rfl | rfl | rfl | rfl | rfl | rfl | rfl | rfl <;>
            decide)]
        rw [mem_releaseKeyboardHID]
        rcases hk with rfl | rfl | rfl | rfl | rfl | rfl | rfl | rfl <;> simp
      · rw [if_neg h2] at hs'
        exact absurd (hs.symm.trans hs') (by decide)
  · intro hs hs'
    rw [process_state, stateMachine_eq_mwaiting { st with tickEvents := [] } i hs] at hs'
    by_cases h1 : (!i.z || !i.dpadU || !i.dpadD || !i.dpadL || !i.dpadR) = true
    · rw [if_pos h1] at hs'
      exact absurd hs' (by simp)
    · rw [if_neg h1] at hs'
      by_cases h2 : i.now - ({ st with tickEvents := [] } : PCCState).timer > 1
      · have hlvl : i.dpadL = true ∧ i.dpadR = true := by
          simp only [Bool.or_eq_true, Bool.not_eq_true', not_or,
            Bool.not_eq_false] at h1
          exact ⟨h1.1.2, h1.2⟩
        obtain ⟨hpl, hpr⟩ := mwaiting_prev_dpad st hreach hs
        have hL : i.dpadL = (releaseMinecraftHID
            { st with tickEvents := [], state := .joystick } : PCCState).prevDpadL := by
          rw [(releaseMinecraftHID_prevDpad _).1]
          show i.dpadL = st.prevDpadL
          rw [hpl, hlvl.1]
        have hR : i.dpadR = (releaseMinecraftHID
            { st with tickEvents := [], state := .joystick } : PCCState).prevDpadR := by
          rw [(releaseMinecraftHID_prevDpad _).2]
          show i.dpadR = st.prevDpadR
          rw [hpr, hlvl.2]
        constructor
        · intro b
          unfold process
          dsimp only
          rw [stateMachine_eq_mwaiting { st with tickEvents := [] } i hs,
            if_neg h1, if_pos h2]
          rw [minecraftSection_off _ _
            (by rw [keyboardSection_state, joystickSection_state,
              releaseMinecraftHID_state]; simp)]
          rw [keyboardSection_off _ _
            (by rw [joystickSection_state, releaseMinecraftHID_state]; simp)]
          show ¬ b ∈ (joystickSection i (releaseMinecraftHID
            { st with tickEvents := [], state := .joystick })).mouseBtns
          rw [joystickSection_mouseBtns_noedge _ _ hL hR,
            releaseMinecraftHID_mouseBtns]
          simp
        · intro k hk
          unfold process
          dsimp only
          rw [stateMachine_eq_mwaiting { st with tickEvents := [] } i hs,
            if_neg h1, if_pos h2]
          rw [minecraftSection_off _ _
            (by rw [keyboardSection_state, joystickSection_state,
              releaseMinecraftHID_state]; simp)]
          rw [keyboardSection_off _ _
            (by rw [joystickSection_state, releaseMinecraftHID_state]; simp)]
          show ¬ k ∈ (joystickSection i (releaseMinecraftHID
            { st with tickEvents := [], state := .joystick })).kbd
          rw [joystickSection_kbd, mem_releaseMinecraftHID_kbd]
          rcases hk with rfl | rfl | rfl | rfl | rfl | rfl | rfl | rfl | rfl |
            rfl | rfl <;> simp
      · rw [if_neg h2] at hs'
        exact absurd (hs.symm.trans hs') (by decide)

theorem mode_exit_releases_hid_witness :
    MouseButton.left ∉ (process c2S3 (c2Input 5 0 true)).mouseBtns ∧
    MouseButton.right ∉ (process c2S3 (c2Input 5 0 true)).mouseBtns := by
  have hreach : Reachable c2S3 := by
    rw [← c2_step3, ← c2_step2, ← c2_step1]
    exact Reachable.step (Reachable.step (Reachable.step
      (Reachable.init 0 ⟨false, false, false, false, false, false, false,
        false⟩) _) _) _
  exact (mode_exit_releases_hid c2S3 hreach (c2Input 5 0 true)).1 rfl
    (by rw [c2_step4])

/-! ## `PiperMineCraftButtons` (`piper_command_center.py`, lines 250–338)

`__init__` stores the three optional debouncers in the attributes
`mc_top`, `mc_middle` and `mc_bottom` (besides the pin handles, which no
method reads).  `update()` and every query method, however, read
`self.top`, `self.middle` and `self.bottom` — attributes that `__init__`
never assigns, so every such call raises `AttributeError` in Python
regardless of which pins are wired.  The embedding makes the attribute
lookup explicit. -/

/-- The observable state of an adafruit `Debouncer` (external
collaborator): current debounced level plus the two one-tick edges. -/
structure DebouncerS where
  value : Bool
  fell : Bool
  rose : Bool
  deriving DecidableEq, Repr

structure PiperMineCraftButtons where
  mc_top : Option DebouncerS
  mc_middle : Option DebouncerS
  mc_bottom : Option DebouncerS
  deriving DecidableEq, Repr

/-- `PiperMineCraftButtons.__init__` (lines 251–276): a present pin is
wrapped in a debouncer, an absent (`None`) pin stores `None`. -/
def mcButtonsInit (top middle bottom : Option DebouncerS) :
    PiperMineCraftButtons :=
  { mc_top := top, mc_middle := middle, mc_bottom := bottom }

/-- Result of a Python expression that may raise `AttributeError`. -/
inductive PyLookup (α : Type)
  | ok (val : α)
  | attributeError (attr : String)
  deriving DecidableEq, Repr

/-- Python attribute lookup on a `PiperMineCraftButtons` instance: only
the attributes assigned in `__init__` exist. -/
def PiperMineCraftButtons.getattr (b : PiperMineCraftButtons)
    (name : String) : PyLookup (Option DebouncerS) :=
  if name = "mc_top" then .ok b.mc_top
  else if name = "mc_middle" then .ok b.mc_middle
  else if name = "mc_bottom" then .ok b.mc_bottom
  else .attributeError name

/-- `update` (lines 278–284): `if self.top: self.top.update()` and so on.
The debouncer update itself samples the pin (external); it is never
reached because already the first lookup of `self.top` fails. -/
def PiperMineCraftButtons.update (b : PiperMineCraftButtons) :
    PyLookup Unit :=
  match b.getattr "top" with
  | .attributeError a => .attributeError a
  | .ok _ =>
    match b.getattr "middle" with
    | .attributeError a => .attributeError a
    | .ok _ =>
      match b.getattr "bottom" with
      | .attributeError a => .attributeError a
      | .ok _ => .ok ()

/-- `topPressed` (lines 286–290): `if self.top: return not self.top.value
else: return False`. -/
def PiperMineCraftButtons.topPressed (b : PiperMineCraftButtons) :
    PyLookup Bool :=
  match b.getattr "top" with
  | .attributeError a => .attributeError a
  | .ok none => .ok false
  | .ok (some d) => .ok (!d.value)

/-- `topPressedEvent` (lines 292–296). -/
def PiperMineCraftButtons.topPressedEvent (b : PiperMineCraftButtons) :
    PyLookup Bool :=
  match b.getattr "top" with
  | .attributeError a => .attributeError a
  | .ok none => .ok false
  | .ok (some d) => .ok d.fell

/-- `topReleasedEvent` (lines 298–302). -/
def PiperMineCraftButtons.topReleasedEvent (b : PiperMineCraftButtons) :
    PyLookup Bool :=
  match b.getattr "top" with
  | .attributeError a => .attributeError a
  | .ok none => .ok false
  | .ok (some d) => .ok d.rose

/-- `middlePressed` (lines 304–308). -/
def PiperMineCraftButtons.middlePressed (b : PiperMineCraftButtons) :
    PyLookup Bool :=
  match b.getattr "middle" with
  | .attributeError a => .attributeError a
  | .ok none => .ok false
  | .ok (some d) => .ok (!d.value)

/-- `middlePressedEvent` (lines 310–314). -/
def PiperMineCraftButtons.middlePressedEvent (b : PiperMineCraftButtons) :
    PyLookup Bool :=
  match b.getattr "middle" with
  | .attributeError a => .attributeError a
  | .ok none => .ok false
  | .ok (some d) => .ok d.fell

/-- `middleReleasedEvent` (lines 316–320). -/
def PiperMineCraftButtons.middleReleasedEvent (b : PiperMineCraftButtons) :
    PyLookup Bool :=
  match b.getattr "middle" with
  | .attributeError a => .attributeError a
  | .ok none => .ok false
  | .ok (some d) => .ok d.rose

/-- `bottomPressed` (lines 322–326). -/
def PiperMineCraftButtons.bottomPressed (b : PiperMineCraftButtons) :
    PyLookup Bool :=
  match b.getattr "bottom" with
  | .attributeError a => .attributeError a
  | .ok none => .ok false
  | .ok (some d) => .ok (!d.value)

/-- `bottomPressedEvent` (lines 328–332). -/
def PiperMineCraftButtons.bottomPressedEvent (b : PiperMineCraftButtons) :
    PyLookup Bool :=
  match b.getattr "bottom" with
  | .attributeError a => .attributeError a
  | .ok none => .ok false
  | .ok (some d) => .ok d.fell

/-- `bottomReleasedEvent` (lines 334–338). -/
def PiperMineCraftButtons.bottomReleasedEvent (b : PiperMineCraftButtons) :
    PyLookup Bool :=
  match b.getattr "bottom" with
  | .attributeError a => .attributeError a
  | .ok none => .ok false
  | .ok (some d) => .ok d.rose

/-- C8 is a code bug: for every `PiperMineCraftButtons` instance —
whatever combination of pins is present or absent, in particular the
all-absent instance `mcButtonsInit none none none` — `update()` and every
query raise `AttributeError` (`__init__` assigns `mc_top`/`mc_middle`/
`mc_bottom`, but the methods read `self.top`/`self.middle`/`self.bottom`),
contradicting the claim (and the class's own doc comment) that `update()`
never fails and that an absent button reports `pressed() == False`. -/
theorem mc_buttons_attribute_defect (top middle bottom : Option DebouncerS) :
    (mcButtonsInit top middle bottom).update = .attributeError "top" ∧
    (mcButtonsInit top middle bottom).topPressed = .attributeError "top" ∧
    (mcButtonsInit top middle bottom).topPressedEvent =
      .attributeError "top" ∧
    (mcButtonsInit top middle bottom).topReleasedEvent =
      .attributeError "top" ∧
    (mcButtonsInit top middle bottom).middlePressed =
      .attributeError "middle" ∧
    (mcButtonsInit top middle bottom).middlePressedEvent =
      .attributeError "middle" ∧
    (mcButtonsInit top middle bottom).middleReleasedEvent =
      .attributeError "middle" ∧
    (mcButtonsInit top middle bottom).bottomPressed =
      .attributeError "bottom" ∧
    (mcButtonsInit top middle bottom).bottomPressedEvent =
      .attributeError "bottom" ∧
    (mcButtonsInit top middle bottom).bottomReleasedEvent =
      .attributeError "bottom" :=
  ⟨rfl, rfl, rfl, rfl, rfl, rfl, rfl, rfl, rfl, rfl⟩

/-! ### Claim C6: Minecraft modifier / sub-mode handling -/

theorem releasedEvt_true {p c : Bool} (h : releasedEvt p c = true) :
    c = false ∧ p = true := by
  cases c <;> cases p <;> simp [releasedEvt] at h ⊢

theorem mcModifier_off (i : Input) (st : PCCState)
    (hb : i.mcBottom = false) : mcModifier i st = st := by
  unfold mcModifier
  rw [hb]
  simp

theorem mcZButton_id (i : Input) (st : PCCState) (h : i.z = st.prevZ) :
    mcZButton i st = st := by
  unfold mcZButton
  rw [h, pressedEvt_self, releasedEvt_self]
  simp

theorem releaseMinecraftHID_reqs (st : PCCState) :
    (releaseMinecraftHID st).mcFlyingdownReq = st.mcFlyingdownReq ∧
    (releaseMinecraftHID st).mcSprintingReq = st.mcSprintingReq ∧
    (releaseMinecraftHID st).mcCrouchingReq = st.mcCrouchingReq ∧
    (releaseMinecraftHID st).mcUtilityReq = st.mcUtilityReq := by
  obtain ⟨kb, mb, ev, h⟩ := releaseMinecraftHID_spec st
  rw [h]
  exact ⟨rfl, rfl, rfl, rfl⟩

/-- While the modifier is held, each trigger edge sets exactly one pending
request, clearing the other three (with the `elif` priority of the
source: joystick press, then DPad up, down, left), and the sub-mode does
not change. -/
theorem mcModifier_cases (i : Input) (st : PCCState) (hb : i.mcBottom = true) :
    (mcModifier i st).mcMode = st.mcMode ∧
    (pressedEvt st.prevZ i.z = true →
      (mcModifier i st).mcFlyingdownReq = true ∧
      (mcModifier i st).mcSprintingReq = false ∧
      (mcModifier i st).mcCrouchingReq = false ∧
      (mcModifier i st).mcUtilityReq = false) ∧
    (pressedEvt st.prevZ i.z = false →
     pressedEvt st.prevDpadU i.dpadU = true →
      (mcModifier i st).mcFlyingdownReq = false ∧
      (mcModifier i st).mcSprintingReq = true ∧
      (mcModifier i st).mcCrouchingReq = false ∧
      (mcModifier i st).mcUtilityReq = false) ∧
    (pressedEvt st.prevZ i.z = false →
     pressedEvt st.prevDpadU i.dpadU = false →
     pressedEvt st.prevDpadD i.dpadD = true →
      (mcModifier i st).mcFlyingdownReq = false ∧
      (mcModifier i st).mcSprintingReq = false ∧
      (mcModifier i st).mcCrouchingReq = true ∧
      (mcModifier i st).mcUtilityReq = false) ∧
    (pressedEvt st.prevZ i.z = false →
     pressedEvt st.prevDpadU i.dpadU = false →
     pressedEvt st.prevDpadD i.dpadD = false →
     pressedEvt st.prevDpadL i.dpadL = true →
      (mcModifier i st).mcFlyingdownReq = false ∧
      (mcModifier i st).mcSprintingReq = false ∧
      (mcModifier i st).mcCrouchingReq = false ∧
      (mcModifier i st).mcUtilityReq = true) := by
  unfold mcModifier
  rw [hb]
  refine ⟨?_, ?_, ?_, ?_, ?_⟩
  · split_ifs <;> rfl
  · intro h1
    rw [h1]
    simp
  · intro h1 h2
    rw [h1, h2]
    simp
  · intro h1 h2 h3
    rw [h1, h2, h3]
    simp
  · intro h1 h2 h3 h4
    rw [h1, h2, h3, h4]
    simp

/-- On the modifier release edge the pending request is committed: all
Minecraft HID state is released first, then the sub-mode becomes the
pending request (DEFAULT if none), the committed request flag is cleared,
and CONTROL / LEFT_SHIFT end the call pressed exactly for the sprinting /
crouching commits. -/
theorem mcCommit_facts (i : Input) (st : PCCState)
    (h : releasedEvt st.prevMcBottom i.mcBottom = true) :
    (mcCommit i st).mcMode =
      (if st.mcFlyingdownReq = true then MCMode.flyingdown
       else if st.mcSprintingReq = true then MCMode.sprinting
       else if st.mcCrouchingReq = true then MCMode.crouching
       else if st.mcUtilityReq = true then MCMode.utility
       else MCMode.mcDefault) ∧
    (mcCommit i st).mcFlyingdownReq = false ∧
    (mcCommit i st).mcSprintingReq =
      (st.mcSprintingReq && st.mcFlyingdownReq) ∧
    (mcCommit i st).mcCrouchingReq =
      (st.mcCrouchingReq && (st.mcFlyingdownReq || st.mcSprintingReq)) ∧
    (mcCommit i st).mcUtilityReq =
      (st.mcUtilityReq && (st.mcFlyingdownReq || st.mcSprintingReq ||
        st.mcCrouchingReq)) ∧
    (Keycode.control ∈ (mcCommit i st).kbd ↔
      (st.mcFlyingdownReq = false ∧ st.mcSprintingReq = true)) ∧
    (Keycode.leftShift ∈ (mcCommit i st).kbd ↔
      (st.mcFlyingdownReq = false ∧ st.mcSprintingReq = false ∧
       st.mcCrouchingReq = true)) := by
  have hreq := releaseMinecraftHID_reqs st
  unfold mcCommit
  rw [if_pos h]
  dsimp only
  rw [hreq.1, hreq.2.1, hreq.2.2.1, hreq.2.2.2]
  split_ifs with hf hsp hc hu <;>
    refine ⟨?_, ?_, ?_, ?_, ?_, ?_, ?_⟩ <;>
    simp_all [pressKey, mem_pressKey, mem_releaseMinecraftHID_kbd, hreq.1,
      hreq.2.1, hreq.2.2.1, hreq.2.2.2]

theorem mcUtilL_mem (i : Input) (st : PCCState) (k : Keycode)
    (hk : k ≠ Keycode.e) : k ∈ (mcUtilL i st).kbd ↔ k ∈ st.kbd := by
  unfold mcUtilL
  split_ifs <;> simp [mem_pressKey, mem_releaseKey, hk]

theorem mcUtilR_mem (i : Input) (st : PCCState) (k : Keycode)
    (hk : k ≠ Keycode.escape) : k ∈ (mcUtilR i st).kbd ↔ k ∈ st.kbd := by
  unfold mcUtilR
  split_ifs <;> simp [mem_pressKey, mem_releaseKey, hk]

theorem mcDpadUtility_mem (i : Input) (st : PCCState) (k : Keycode)
    (h1 : k ≠ Keycode.e) (h2 : k ≠ Keycode.escape) :
    k ∈ (mcDpadUtility i st).kbd ↔ k ∈ st.kbd := by
  unfold mcDpadUtility
  obtain ⟨e1, hU⟩ := mcUtilU_spec i st
  obtain ⟨e2, hD⟩ := mcUtilD_spec i (mcUtilU i st)
  rw [mcUtilR_mem _ _ _ h2, mcUtilL_mem _ _ _ h1, hD, hU]

theorem mcWasdU_mem (i : Input) (st : PCCState) (k : Keycode)
    (hk : k ≠ Keycode.w) : k ∈ (mcWasdU i st).kbd ↔ k ∈ st.kbd := by
  unfold mcWasdU
  split_ifs <;> simp [mem_pressKey, mem_releaseKey, hk]

theorem mcWasdD_mem (i : Input) (st : PCCState) (k : Keycode)
    (hk : k ≠ Keycode.s) : k ∈ (mcWasdD i st).kbd ↔ k ∈ st.kbd := by
  unfold mcWasdD
  split_ifs <;> simp [mem_pressKey, mem_releaseKey, hk]

theorem mcWasdL_mem (i : Input) (st : PCCState) (k : Keycode)
    (hk : k ≠ Keycode.a) : k ∈ (mcWasdL i st).kbd ↔ k ∈ st.kbd := by
  unfold mcWasdL
  split_ifs <;> simp [mem_pressKey, mem_releaseKey, hk]

theorem mcWasdR_mem (i : Input) (st : PCCState) (k : Keycode)
    (hk : k ≠ Keycode.d) : k ∈ (mcWasdR i st).kbd ↔ k ∈ st.kbd := by
  unfold mcWasdR
  split_ifs <;> simp [mem_pressKey, mem_releaseKey, hk]

theorem mcDpadWasd_mem (i : Input) (st : PCCState) (k : Keycode)
    (h1 : k ≠ Keycode.w) (h2 : k ≠ Keycode.s) (h3 : k ≠ Keycode.a)
    (h4 : k ≠ Keycode.d) :
    k ∈ (mcDpadWasd i st).kbd ↔ k ∈ st.kbd := by
  unfold mcDpadWasd
  rw [mcWasdR_mem _ _ _ h4, mcWasdL_mem _ _ _ h3, mcWasdD_mem _ _ _ h2,
    mcWasdU_mem _ _ _ h1]

/-- With the modifier up, a tick with no joystick-button edge can change
only the E/ESCAPE/W/S/A/D membership of the HID keyboard. -/
theorem mcNoModifier_mem (i : Input) (st : PCCState) (k : Keycode)
    (hz : i.z = st.prevZ) (h1 : k ≠ Keycode.e) (h2 : k ≠ Keycode.escape)
    (h3 : k ≠ Keycode.w) (h4 : k ≠ Keycode.s) (h5 : k ≠ Keycode.a)
    (h6 : k ≠ Keycode.d) :
    k ∈ (mcNoModifier i st).kbd ↔ k ∈ st.kbd := by
  unfold mcNoModifier
  dsimp only
  split_ifs with hg hm
  · rw [mcZButton_id i st hz, mcDpadUtility_mem _ _ _ h1 h2]
  · rw [mcZButton_id i st hz, mcDpadWasd_mem _ _ _ h3 h4 h5 h6]
  · exact Iff.rfl

/-- While the modifier is held, the Minecraft section's sub-mode is
unchanged and its pending-request flags are exactly those set by the
modifier block. -/
theorem minecraftSection_bottom_facts (i : Input) (st : PCCState)
    (hst : st.state = MState.minecraft) (hb : i.mcBottom = true) :
    (minecraftSection i st).mcMode = st.mcMode ∧
    (minecraftSection i st).mcFlyingdownReq = (mcModifier i st).mcFlyingdownReq ∧
    (minecraftSection i st).mcSprintingReq = (mcModifier i st).mcSprintingReq ∧
    (minecraftSection i st).mcCrouchingReq = (mcModifier i st).mcCrouchingReq ∧
    (minecraftSection i st).mcUtilityReq = (mcModifier i st).mcUtilityReq := by
  unfold minecraftSection
  rw [if_pos hst]
  have hrel : releasedEvt (mcModifier i st).prevMcBottom i.mcBottom = false := by
    rw [hb]
    rfl
  rw [mcNoModifier_off i _ hb, mcCommit_off i _ hrel]
  obtain ⟨lm, ev, hmm⟩ := mcMouseMove_spec i (mcModifier i st)
  obtain ⟨kb, mb, ev2, htm⟩ := mcTopMiddle_spec i (mcMouseMove i (mcModifier i st))
  rw [htm, hmm]
  obtain ⟨f, sp, cr, ut, hmod⟩ := mcModifier_spec i st
  rw [hmod]
  exact ⟨rfl, rfl, rfl, rfl, rfl⟩

/-- On the modifier's release edge (with no joystick-button edge in the
same tick) the Minecraft section commits the pending request. -/
theorem minecraftSection_commit_facts (i : Input) (st : PCCState)
    (hst : st.state = MState.minecraft)
    (hrel : releasedEvt st.prevMcBottom i.mcBottom = true)
    (hz : i.z = st.prevZ) :
    (minecraftSection i st).mcMode =
      (if st.mcFlyingdownReq = true then MCMode.flyingdown
       else if st.mcSprintingReq = true then MCMode.sprinting
       else if st.mcCrouchingReq = true then MCMode.crouching
       else if st.mcUtilityReq = true then MCMode.utility
       else MCMode.mcDefault) ∧
    (minecraftSection i st).mcFlyingdownReq = false ∧
    (minecraftSection i st).mcSprintingReq =
      (st.mcSprintingReq && st.mcFlyingdownReq) ∧
    (minecraftSection i st).mcCrouchingReq =
      (st.mcCrouchingReq && (st.mcFlyingdownReq || st.mcSprintingReq)) ∧
    (minecraftSection i st).mcUtilityReq =
      (st.mcUtilityReq && (st.mcFlyingdownReq || st.mcSprintingReq ||
        st.mcCrouchingReq)) ∧
    (Keycode.control ∈ (minecraftSection i st).kbd ↔
      (st.mcFlyingdownReq = false ∧ st.mcSprintingReq = true)) ∧
    (Keycode.leftShift ∈ (minecraftSection i st).kbd ↔
      (st.mcFlyingdownReq = false ∧ st.mcSprintingReq = false ∧
       st.mcCrouchingReq = true)) := by
  have hbf : i.mcBottom = false := (releasedEvt_true hrel).1
  have hC := mcCommit_facts i st hrel
  unfold minecraftSection
  rw [if_pos hst, mcModifier_off i st hbf]
  obtain ⟨lm, ev1, hmm⟩ := mcMouseMove_spec i (mcCommit i st)
  obtain ⟨kb, mb, ev2, htm⟩ :=
    mcTopMiddle_spec i (mcMouseMove i (mcCommit i st))
  obtain ⟨kb3, ev3, hnm⟩ :=
    mcNoModifier_spec i (mcTopMiddle i (mcMouseMove i (mcCommit i st)))
  have hz2 : i.z = (mcTopMiddle i (mcMouseMove i (mcCommit i st))).prevZ := by
    rw [htm, hmm]
    obtain ⟨kb0, mb0, ev0, mode0, f0, sp0, cr0, ut0, hB⟩ := mcCommit_spec i st
    rw [hB]
    exact hz
  refine ⟨?_, ?_, ?_, ?_, ?_, ?_, ?_⟩
  · rw [hnm, htm, hmm]
    exact hC.1
  · rw [hnm, htm, hmm]
    exact hC.2.1
  · rw [hnm, htm, hmm]
    exact hC.2.2.1
  · rw [hnm, htm, hmm]
    exact hC.2.2.2.1
  · rw [hnm, htm, hmm]
    exact hC.2.2.2.2.1
  · rw [mcNoModifier_mem _ _ _ hz2 (by decide) (by decide) (by decide)
      (by decide) (by decide) (by decide)]
    rw [mcTopMiddle_kbd_mem i _ Keycode.control (by decide), hmm]
    exact hC.2.2.2.2.2.1
  · rw [mcNoModifier_mem _ _ _ hz2 (by decide) (by decide) (by decide)
      (by decide) (by decide) (by decide)]
    rw [mcTopMiddle_kbd_mem i _ Keycode.leftShift (by decide), hmm]
    exact hC.2.2.2.2.2.2

/-- With AUX_MODE active and the full chord not held, a `process` call is
the Minecraft handling block alone (plus the end-of-tick level capture). -/
theorem process_minecraft_eq (st : PCCState) (i : Input)
    (hs : st.state = MState.minecraft)
    (hg : (i.z && i.dpadU && i.dpadD && i.dpadL && i.dpadR) = false) :
    process st i =
      { minecraftSection i { st with tickEvents := [] } with
        prevZ := i.z, prevDpadL := i.dpadL, prevDpadR := i.dpadR,
        prevDpadU := i.dpadU, prevDpadD := i.dpadD, prevMcTop := i.mcTop,
        prevMcMiddle := i.mcMiddle, prevMcBottom := i.mcBottom } := by
  have hg' : ¬(i.z && i.dpadU && i.dpadD && i.dpadL && i.dpadR) = true := by
    simp [hg]
  unfold process
  dsimp only
  rw [stateMachine_eq_minecraft { st with tickEvents := [] } i hs, if_neg hg']
  rw [joystickSection_off i _ (by simp [hs]), keyboardSection_off i _ (by simp [hs])]

/-- Claim C6: in AUX_MODE (`_MINECRAFT`), while the bottom modifier button
is held, a joystick-button press edge or a DPad up/down/left press edge
sets exactly one pending sub-mode request (flying-down, sprinting,
crouching, utility respectively) with the source's `elif` last-wins
priority, clearing the other three, and the sub-mode is unchanged; on the
modifier's release edge (with no simultaneous joystick-button edge, which
would additionally press that sub-mode's key) the pending request is
committed as the active sub-mode — DEFAULT when none was pending — the
committed request flag is cleared, and the HID keyboard ends the tick with
CONTROL down exactly for a sprinting commit and LEFT_SHIFT down exactly
for a crouching commit (all Minecraft HID state having been released
first); the mode tag stays `_MINECRAFT` throughout (given that the full
exit chord is not held). -/
theorem minecraft_modifier_submode (st : PCCState) (i : Input)
    (hs : st.state = MState.minecraft)
    (hg : (i.z && i.dpadU && i.dpadD && i.dpadL && i.dpadR) = false) :
    (process st i).state = MState.minecraft ∧
    (i.mcBottom = true →
      (process st i).mcMode = st.mcMode ∧
      (pressedEvt st.prevZ i.z = true →
        (process st i).mcFlyingdownReq = true ∧
        (process st i).mcSprintingReq = false ∧
        (process st i).mcCrouchingReq = false ∧
        (process st i).mcUtilityReq = false) ∧
      (pressedEvt st.prevZ i.z = false →
       pressedEvt st.prevDpadU i.dpadU = true →
        (process st i).mcFlyingdownReq = false ∧
        (process st i).mcSprintingReq = true ∧
        (process st i).mcCrouchingReq = false ∧
        (process st i).mcUtilityReq = false) ∧
      (pressedEvt st.prevZ i.z = false →
       pressedEvt st.prevDpadU i.dpadU = false →
       pressedEvt st.prevDpadD i.dpadD = true →
        (process st i).mcFlyingdownReq = false ∧
        (process st i).mcSprintingReq = false ∧
        (process st i).mcCrouchingReq = true ∧
        (process st i).mcUtilityReq = false) ∧
      (pressedEvt st.prevZ i.z = false →
       pressedEvt st.prevDpadU i.dpadU = false →
       pressedEvt st.prevDpadD i.dpadD = false →
       pressedEvt st.prevDpadL i.dpadL = true →
        (process st i).mcFlyingdownReq = false ∧
        (process st i).mcSprintingReq = false ∧
        (process st i).mcCrouchingReq = false ∧
        (process st i).mcUtilityReq = true)) ∧
    (releasedEvt st.prevMcBottom i.mcBottom = true → i.z = st.prevZ →
      (process st i).mcMode =
        (if st.mcFlyingdownReq = true then MCMode.flyingdown
         else if st.mcSprintingReq = true then MCMode.sprinting
         else if st.mcCrouchingReq = true then MCMode.crouching
         else if st.mcUtilityReq = true then MCMode.utility
         else MCMode.mcDefault) ∧
      (process st i).mcFlyingdownReq = false ∧
      (process st i).mcSprintingReq =
        (st.mcSprintingReq && st.mcFlyingdownReq) ∧
      (process st i).mcCrouchingReq =
        (st.mcCrouchingReq && (st.mcFlyingdownReq || st.mcSprintingReq)) ∧
      (process st i).mcUtilityReq =
        (st.mcUtilityReq && (st.mcFlyingdownReq || st.mcSprintingReq ||
          st.mcCrouchingReq)) ∧
      (Keycode.control ∈ (process st i).kbd ↔
        (st.mcFlyingdownReq = false ∧ st.mcSprintingReq = true)) ∧
      (Keycode.leftShift ∈ (process st i).kbd ↔
        (st.mcFlyingdownReq = false ∧ st.mcSprintingReq = false ∧
         st.mcCrouchingReq = true))) := by
  have hP := process_minecraft_eq st i hs hg
  refine ⟨?_, ?_, ?_⟩
  · rw [hP]
    show (minecraftSection i { st with tickEvents := [] }).state = _
    rw [minecraftSection_state]
    exact hs
  · intro hb
    have hfacts := minecraftSection_bottom_facts i { st with tickEvents := [] } hs hb
    have hcases := mcModifier_cases i { st with tickEvents := [] } hb
    refine ⟨?_, ?_, ?_, ?_, ?_⟩
    · rw [hP]
      exact hfacts.1
    · intro h1
      have hc := hcases.2.1 h1
      rw [hP]
      exact ⟨hfacts.2.1.trans hc.1, hfacts.2.2.1.trans hc.2.1,
        hfacts.2.2.2.1.trans hc.2.2.1, hfacts.2.2.2.2.trans hc.2.2.2⟩
    · intro h1 h2
      have hc := hcases.2.2.1 h1 h2
      rw [hP]
      exact ⟨hfacts.2.1.trans hc.1, hfacts.2.2.1.trans hc.2.1,
        hfacts.2.2.2.1.trans hc.2.2.1, hfacts.2.2.2.2.trans hc.2.2.2⟩
    · intro h1 h2 h3
      have hc := hcases.2.2.2.1 h1 h2 h3
      rw [hP]
      exact ⟨hfacts.2.1.trans hc.1, hfacts.2.2.1.trans hc.2.1,
        hfacts.2.2.2.1.trans hc.2.2.1, hfacts.2.2.2.2.trans hc.2.2.2⟩
    · intro h1 h2 h3 h4
      have hc := hcases.2.2.2.2 h1 h2 h3 h4
      rw [hP]
      exact ⟨hfacts.2.1.trans hc.1, hfacts.2.2.1.trans hc.2.1,
        hfacts.2.2.2.1.trans hc.2.2.1, hfacts.2.2.2.2.trans hc.2.2.2⟩
  · intro hrel hz
    have hc := minecraftSection_commit_facts i { st with tickEvents := [] } hs hrel hz
    rw [hP]
    exact ⟨hc.1, hc.2.1, hc.2.2.1, hc.2.2.2.1, hc.2.2.2.2.1,
      hc.2.2.2.2.2.1, hc.2.2.2.2.2.2⟩

/-- Witness for C6: a sprinting request pending, modifier released with no
other edge — the sub-mode commits to sprinting and CONTROL is down. -/
theorem minecraft_modifier_submode_witness :
    (process
      { initState 0 ⟨false, false, false, false, false, false, false, false⟩
        with state := MState.minecraft, mcSprintingReq := true,
             prevMcBottom := true }
      { now := 1, dx := 0, dy := 0, z := false, dpadU := false,
        dpadD := false, dpadL := false, dpadR := false, mcTop := false,
        mcMiddle := false, mcBottom := false }).mcMode = MCMode.sprinting ∧
    Keycode.control ∈
      (process
        { initState 0 ⟨false, false, false, false, false, false, false, false⟩
          with state := MState.minecraft, mcSprintingReq := true,
               prevMcBottom := true }
        { now := 1, dx := 0, dy := 0, z := false, dpadU := false,
          dpadD := false, dpadL := false, dpadR := false, mcTop := false,
          mcMiddle := false, mcBottom := false }).kbd := by
  have h := minecraft_modifier_submode
    { initState 0 ⟨false, false, false, false, false, false, false, false⟩
      with state := MState.minecraft, mcSprintingReq := true,
           prevMcBottom := true }
    { now := 1, dx := 0, dy := 0, z := false, dpadU := false,
      dpadD := false, dpadL := false, dpadR := false, mcTop := false,
      mcMiddle := false, mcBottom := false } rfl rfl
  have hc := h.2.2 rfl rfl
  refine ⟨hc.1.trans (by norm_num [initState]), ?_⟩
  rw [hc.2.2.2.2.2.1]
  exact ⟨rfl, rfl⟩

/-! ### Claim C5: keyboard arrow-key latches -/

theorem kbSpace_count (i : Input) (st : PCCState) (e : HidEvent)
    (h1 : e ≠ HidEvent.keyPress Keycode.space)
    (h2 : e ≠ HidEvent.keyRelease Keycode.space) :
    countEvt e (kbSpace i st).tickEvents = countEvt e st.tickEvents := by
  unfold kbSpace pressKey releaseKey
  split_ifs <;> simp [countEvt_append, countEvt, Ne.symm h1, Ne.symm h2]

theorem kbX_count (i : Input) (st : PCCState) (e : HidEvent)
    (h1 : e ≠ HidEvent.keyPress Keycode.x)
    (h2 : e ≠ HidEvent.keyRelease Keycode.x) :
    countEvt e (kbX i st).tickEvents = countEvt e st.tickEvents := by
  unfold kbX pressKey releaseKey
  split_ifs <;> simp [countEvt_append, countEvt, Ne.symm h1, Ne.symm h2]

theorem kbZ_count (i : Input) (st : PCCState) (e : HidEvent)
    (h1 : e ≠ HidEvent.keyPress Keycode.z)
    (h2 : e ≠ HidEvent.keyRelease Keycode.z) :
    countEvt e (kbZ i st).tickEvents = countEvt e st.tickEvents := by
  unfold kbZ pressKey releaseKey
  split_ifs <;> simp [countEvt_append, countEvt, Ne.symm h1, Ne.symm h2]

theorem kbC_count (i : Input) (st : PCCState) (e : HidEvent)
    (h1 : e ≠ HidEvent.keyPress Keycode.c)
    (h2 : e ≠ HidEvent.keyRelease Keycode.c) :
    countEvt e (kbC i st).tickEvents = countEvt e st.tickEvents := by
  unfold kbC pressKey releaseKey
  split_ifs <;> simp [countEvt_append, countEvt, Ne.symm h1, Ne.symm h2]

theorem kbLatchX_count_other (i : Input) (st : PCCState) (e : HidEvent)
    (h1 : e ≠ HidEvent.keyPress Keycode.leftArrow)
    (h2 : e ≠ HidEvent.keyRelease Keycode.leftArrow)
    (h3 : e ≠ HidEvent.keyPress Keycode.rightArrow)
    (h4 : e ≠ HidEvent.keyRelease Keycode.rightArrow) :
    countEvt e (kbLatchX i st).tickEvents = countEvt e st.tickEvents := by
  unfold kbLatchX pressKey releaseKey
  dsimp only
  split_ifs <;>
    simp [countEvt_append, countEvt, Ne.symm h1, Ne.symm h2, Ne.symm h3,
      Ne.symm h4]

theorem kbLatchY_count_other (i : Input) (st : PCCState) (e : HidEvent)
    (h1 : e ≠ HidEvent.keyPress Keycode.upArrow)
    (h2 : e ≠ HidEvent.keyRelease Keycode.upArrow)
    (h3 : e ≠ HidEvent.keyPress Keycode.downArrow)
    (h4 : e ≠ HidEvent.keyRelease Keycode.downArrow) :
    countEvt e (kbLatchY i st).tickEvents = countEvt e st.tickEvents := by
  unfold kbLatchY pressKey releaseKey
  dsimp only
  split_ifs <;>
    simp [countEvt_append, countEvt, Ne.symm h1, Ne.symm h2, Ne.symm h3,
      Ne.symm h4]

theorem kbLatchX_countL (i : Input) (st : PCCState) :
    countEvt (HidEvent.keyPress Keycode.leftArrow) (kbLatchX i st).tickEvents =
      countEvt (HidEvent.keyPress Keycode.leftArrow) st.tickEvents +
        (if i.dx < 0 ∧ st.leftPressed = false then 1 else 0) := by
  unfold kbLatchX pressKey releaseKey
  dsimp only
  split_ifs <;> simp_all [countEvt_append, countEvt] <;> omega

theorem kbLatchX_countL_rel (i : Input) (st : PCCState) :
    countEvt (HidEvent.keyRelease Keycode.leftArrow) (kbLatchX i st).tickEvents =
      countEvt (HidEvent.keyRelease Keycode.leftArrow) st.tickEvents +
        (if ¬i.dx < 0 ∧ st.leftPressed = true then 1 else 0) := by
  unfold kbLatchX pressKey releaseKey
  dsimp only
  split_ifs <;> simp_all [countEvt_append, countEvt] <;> omega

theorem kbLatchX_countR (i : Input) (st : PCCState) :
    countEvt (HidEvent.keyPress Keycode.rightArrow) (kbLatchX i st).tickEvents =
      countEvt (HidEvent.keyPress Keycode.rightArrow) st.tickEvents +
        (if 0 < i.dx ∧ st.rightPressed = false then 1 else 0) := by
  unfold kbLatchX pressKey releaseKey
  dsimp only
  split_ifs <;> simp_all [countEvt_append, countEvt] <;> omega

theorem kbLatchX_countR_rel (i : Input) (st : PCCState) :
    countEvt (HidEvent.keyRelease Keycode.rightArrow) (kbLatchX i st).tickEvents =
      countEvt (HidEvent.keyRelease Keycode.rightArrow) st.tickEvents +
        (if ¬0 < i.dx ∧ st.rightPressed = true then 1 else 0) := by
  unfold kbLatchX pressKey releaseKey
  dsimp only
  split_ifs <;> simp_all [countEvt_append, countEvt] <;> omega

theorem kbLatchY_countU (i : Input) (st : PCCState) :
    countEvt (HidEvent.keyPress Keycode.upArrow) (kbLatchY i st).tickEvents =
      countEvt (HidEvent.keyPress Keycode.upArrow) st.tickEvents +
        (if i.dy < 0 ∧ st.upPressed = false then 1 else 0) := by
  unfold kbLatchY pressKey releaseKey
  dsimp only
  split_ifs <;> simp_all [countEvt_append, countEvt] <;> omega

theorem kbLatchY_countU_rel (i : Input) (st : PCCState) :
    countEvt (HidEvent.keyRelease Keycode.upArrow) (kbLatchY i st).tickEvents =
      countEvt (HidEvent.keyRelease Keycode.upArrow) st.tickEvents +
        (if ¬i.dy < 0 ∧ st.upPressed = true then 1 else 0) := by
  unfold kbLatchY pressKey releaseKey
  dsimp only
  split_ifs <;> simp_all [countEvt_append, countEvt] <;> omega

theorem kbLatchY_countD (i : Input) (st : PCCState) :
    countEvt (HidEvent.keyPress Keycode.downArrow) (kbLatchY i st).tickEvents =
      countEvt (HidEvent.keyPress Keycode.downArrow) st.tickEvents +
        (if 0 < i.dy ∧ st.downPressed = false then 1 else 0) := by
  unfold kbLatchY pressKey releaseKey
  dsimp only
  split_ifs <;> simp_all [countEvt_append, countEvt] <;> omega

theorem kbLatchY_countD_rel (i : Input) (st : PCCState) :
    countEvt (HidEvent.keyRelease Keycode.downArrow) (kbLatchY i st).tickEvents =
      countEvt (HidEvent.keyRelease Keycode.downArrow) st.tickEvents +
        (if ¬0 < i.dy ∧ st.downPressed = true then 1 else 0) := by
  unfold kbLatchY pressKey releaseKey
  dsimp only
  split_ifs <;> simp_all [countEvt_append, countEvt] <;> omega

theorem kbLatchX_up (i : Input) (st : PCCState) :
    (kbLatchX i st).upPressed = st.upPressed := by
  obtain ⟨kb, ev, l, r, h⟩ := kbLatchX_spec i st
  rw [h]

theorem kbLatchX_down (i : Input) (st : PCCState) :
    (kbLatchX i st).downPressed = st.downPressed := by
  obtain ⟨kb, ev, l, r, h⟩ := kbLatchX_spec i st
  rw [h]

/-- Arrow-key press/release counts emitted by one run of the keyboard
handling block: each of the four arrows gets one press exactly when its
delta condition holds and its latch flag was clear, and one release
exactly when its delta condition fails and its latch flag was set. -/
theorem keyboardSection_counts (i : Input) (st : PCCState)
    (h : st.state = .keyboard ∨ st.state = .kwaitingToJ ∨
         st.state = .kwaitingToMC) :
    countEvt (HidEvent.keyPress Keycode.leftArrow)
        (keyboardSection i st).tickEvents =
      countEvt (HidEvent.keyPress Keycode.leftArrow) st.tickEvents +
        (if i.dx < 0 ∧ st.leftPressed = false then 1 else 0) ∧
    countEvt (HidEvent.keyRelease Keycode.leftArrow)
        (keyboardSection i st).tickEvents =
      countEvt (HidEvent.keyRelease Keycode.leftArrow) st.tickEvents +
        (if ¬i.dx < 0 ∧ st.leftPressed = true then 1 else 0) ∧
    countEvt (HidEvent.keyPress Keycode.rightArrow)
        (keyboardSection i st).tickEvents =
      countEvt (HidEvent.keyPress Keycode.rightArrow) st.tickEvents +
        (if 0 < i.dx ∧ st.rightPressed = false then 1 else 0) ∧
    countEvt (HidEvent.keyRelease Keycode.rightArrow)
        (keyboardSection i st).tickEvents =
      countEvt (HidEvent.keyRelease Keycode.rightArrow) st.tickEvents +
        (if ¬0 < i.dx ∧ st.rightPressed = true then 1 else 0) ∧
    countEvt (HidEvent.keyPress Keycode.upArrow)
        (keyboardSection i st).tickEvents =
      countEvt (HidEvent.keyPress Keycode.upArrow) st.tickEvents +
        (if i.dy < 0 ∧ st.upPressed = false then 1 else 0) ∧
    countEvt (HidEvent.keyRelease Keycode.upArrow)
        (keyboardSection i st).tickEvents =
      countEvt (HidEvent.keyRelease Keycode.upArrow) st.tickEvents +
        (if ¬i.dy < 0 ∧ st.upPressed = true then 1 else 0) ∧
    countEvt (HidEvent.keyPress Keycode.downArrow)
        (keyboardSection i st).tickEvents =
      countEvt (HidEvent.keyPress Keycode.downArrow) st.tickEvents +
        (if 0 < i.dy ∧ st.downPressed = false then 1 else 0) ∧
    countEvt (HidEvent.keyRelease Keycode.downArrow)
        (keyboardSection i st).tickEvents =
      countEvt (HidEvent.keyRelease Keycode.downArrow) st.tickEvents +
        (if ¬0 < i.dy ∧ st.downPressed = true then 1 else 0) := by
  unfold keyboardSection
  rw [if_pos h]
  refine ⟨?_, ?_, ?_, ?_, ?_, ?_, ?_, ?_⟩
  · rw [kbLatchY_count_other _ _ _ (by decide) (by decide) (by decide)
        (by decide), kbLatchX_countL, kbC_count _ _ _ (by decide) (by decide),
      kbZ_count _ _ _ (by decide) (by decide),
      kbX_count _ _ _ (by decide) (by decide),
      kbSpace_count _ _ _ (by decide) (by decide), (kbC_flags i _).2.2.1,
      (kbZ_flags i _).2.2.1, (kbX_flags i _).2.2.1, (kbSpace_flags i _).2.2.1]
  · rw [kbLatchY_count_other _ _ _ (by decide) (by decide) (by decide)
        (by decide), kbLatchX_countL_rel,
      kbC_count _ _ _ (by decide) (by decide),
      kbZ_count _ _ _ (by decide) (by decide),
      kbX_count _ _ _ (by decide) (by decide),
      kbSpace_count _ _ _ (by decide) (by decide), (kbC_flags i _).2.2.1,
      (kbZ_flags i _).2.2.1, (kbX_flags i _).2.2.1, (kbSpace_flags i _).2.2.1]
  · rw [kbLatchY_count_other _ _ _ (by decide) (by decide) (by decide)
        (by decide), kbLatchX_countR, kbC_count _ _ _ (by decide) (by decide),
      kbZ_count _ _ _ (by decide) (by decide),
      kbX_count _ _ _ (by decide) (by decide),
      kbSpace_count _ _ _ (by decide) (by decide), (kbC_flags i _).2.2.2,
      (kbZ_flags i _).2.2.2, (kbX_flags i _).2.2.2, (kbSpace_flags i _).2.2.2]
  · rw [kbLatchY_count_other _ _ _ (by decide) (by decide) (by decide)
        (by decide), kbLatchX_countR_rel,
      kbC_count _ _ _ (by decide) (by decide),
      kbZ_count _ _ _ (by decide) (by decide),
      kbX_count _ _ _ (by decide) (by decide),
      kbSpace_count _ _ _ (by decide) (by decide), (kbC_flags i _).2.2.2,
      (kbZ_flags i _).2.2.2, (kbX_flags i _).2.2.2, (kbSpace_flags i _).2.2.2]
  · rw [kbLatchY_countU,
      kbLatchX_count_other _ _ _ (by decide) (by decide) (by decide)
        (by decide), kbC_count _ _ _ (by decide) (by decide),
      kbZ_count _ _ _ (by decide) (by decide),
      kbX_count _ _ _ (by decide) (by decide),
      kbSpace_count _ _ _ (by decide) (by decide), kbLatchX_up,
      (kbC_flags i _).1, (kbZ_flags i _).1, (kbX_flags i _).1,
      (kbSpace_flags i _).1]
  · rw [kbLatchY_countU_rel,
      kbLatchX_count_other _ _ _ (by decide) (by decide) (by decide)
        (by decide), kbC_count _ _ _ (by decide) (by decide),
      kbZ_count _ _ _ (by decide) (by decide),
      kbX_count _ _ _ (by decide) (by decide),
      kbSpace_count _ _ _ (by decide) (by decide), kbLatchX_up,
      (kbC_flags i _).1, (kbZ_flags i _).1, (kbX_flags i _).1,
      (kbSpace_flags i _).1]
  · rw [kbLatchY_countD,
      kbLatchX_count_other _ _ _ (by decide) (by decide) (by decide)
        (by decide), kbC_count _ _ _ (by decide) (by decide),
      kbZ_count _ _ _ (by decide) (by decide),
      kbX_count _ _ _ (by decide) (by decide),
      kbSpace_count _ _ _ (by decide) (by decide), kbLatchX_down,
      (kbC_flags i _).2.1, (kbZ_flags i _).2.1, (kbX_flags i _).2.1,
      (kbSpace_flags i _).2.1]
  · rw [kbLatchY_countD_rel,
      kbLatchX_count_other _ _ _ (by decide) (by decide) (by decide)
        (by decide), kbC_count _ _ _ (by decide) (by decide),
      kbZ_count _ _ _ (by decide) (by decide),
      kbX_count _ _ _ (by decide) (by decide),
      kbSpace_count _ _ _ (by decide) (by decide), kbLatchX_down,
      (kbC_flags i _).2.1, (kbZ_flags i _).2.1, (kbX_flags i _).2.1,
      (kbSpace_flags i _).2.1]

/-- In KEYBOARD state with the joystick button up, a `process` call is the
keyboard handling block alone (plus the end-of-tick level capture). -/
theorem process_keyboard_eq (st : PCCState) (i : Input)
    (hst : st.state = MState.keyboard) (hz : i.z = false) :
    process st i =
      { keyboardSection i { st with tickEvents := [] } with
        prevZ := i.z, prevDpadL := i.dpadL, prevDpadR := i.dpadR,
        prevDpadU := i.dpadU, prevDpadD := i.dpadD, prevMcTop := i.mcTop,
        prevMcMiddle := i.mcMiddle, prevMcBottom := i.mcBottom } := by
  have hsm : stateMachine { st with tickEvents := [] } i =
      { st with tickEvents := ([] : List HidEvent) } := by
    rw [stateMachine_eq_keyboard { st with tickEvents := [] } i hst, hz]
    simp
  unfold process
  dsimp only
  rw [hsm, joystickSection_off i _ (by simp [hst]),
    minecraftSection_off i _ (by rw [keyboardSection_state]; simp [hst])]

/-- Per-tick arrow-latch behavior of `process` while staying in KEYBOARD:
final latch flags are the delta signs, and press/release events are
emitted exactly on latch transitions. -/
theorem process_keyboard_counts (st : PCCState) (i : Input)
    (hst : st.state = MState.keyboard) (hz : i.z = false) :
    (process st i).state = MState.keyboard ∧
    (process st i).leftPressed = decide (i.dx < 0) ∧
    (process st i).rightPressed = decide (0 < i.dx) ∧
    (process st i).upPressed = decide (i.dy < 0) ∧
    (process st i).downPressed = decide (0 < i.dy) ∧
    countEvt (HidEvent.keyPress Keycode.leftArrow) (process st i).tickEvents =
      (if i.dx < 0 ∧ st.leftPressed = false then 1 else 0) ∧
    countEvt (HidEvent.keyRelease Keycode.leftArrow) (process st i).tickEvents =
      (if ¬i.dx < 0 ∧ st.leftPressed = true then 1 else 0) ∧
    countEvt (HidEvent.keyPress Keycode.rightArrow) (process st i).tickEvents =
      (if 0 < i.dx ∧ st.rightPressed = false then 1 else 0) ∧
    countEvt (HidEvent.keyRelease Keycode.rightArrow) (process st i).tickEvents =
      (if ¬0 < i.dx ∧ st.rightPressed = true then 1 else 0) ∧
    countEvt (HidEvent.keyPress Keycode.upArrow) (process st i).tickEvents =
      (if i.dy < 0 ∧ st.upPressed = false then 1 else 0) ∧
    countEvt (HidEvent.keyRelease Keycode.upArrow) (process st i).tickEvents =
      (if ¬i.dy < 0 ∧ st.upPressed = true then 1 else 0) ∧
    countEvt (HidEvent.keyPress Keycode.downArrow) (process st i).tickEvents =
      (if 0 < i.dy ∧ st.downPressed = false then 1 else 0) ∧
    countEvt (HidEvent.keyRelease Keycode.downArrow) (process st i).tickEvents =
      (if ¬0 < i.dy ∧ st.downPressed = true then 1 else 0) := by
  have hP := process_keyboard_eq st i hst hz
  have hon : ({ st with tickEvents := ([] : List HidEvent) } : PCCState).state
      = .keyboard ∨
      ({ st with tickEvents := ([] : List HidEvent) } : PCCState).state
      = .kwaitingToJ ∨
      ({ st with tickEvents := ([] : List HidEvent) } : PCCState).state
      = .kwaitingToMC := Or.inl hst
  have hK := keyboardSection_counts i { st with tickEvents := [] } hon
  have hF := keyboardSection_flags_on i { st with tickEvents := [] } hon
  rw [hP]
  refine ⟨(keyboardSection_state i _).trans hst, hF.1, hF.2.1, hF.2.2.1,
    hF.2.2.2, ?_, ?_, ?_, ?_, ?_, ?_, ?_, ?_⟩
  · simpa [countEvt] using hK.1
  · simpa [countEvt] using hK.2.1
  · simpa [countEvt] using hK.2.2.1
  · simpa [countEvt] using hK.2.2.2.1
  · simpa [countEvt] using hK.2.2.2.2.1
  · simpa [countEvt] using hK.2.2.2.2.2.1
  · simpa [countEvt] using hK.2.2.2.2.2.2.1
  · simpa [countEvt] using hK.2.2.2.2.2.2.2

/-- Holding `dx < 0` with the latch already set emits no further
LEFT_ARROW presses and keeps the machine in KEYBOARD with the latch set. -/
theorem keyboard_hold_left_aux (l : List Input) :
    ∀ st : PCCState, st.state = MState.keyboard → st.leftPressed = true →
    (∀ j ∈ l, j.z = false ∧ j.dx < 0) →
    runCountEvt (HidEvent.keyPress Keycode.leftArrow) st l = 0 ∧
    (runTicks st l).state = MState.keyboard ∧
    (runTicks st l).leftPressed = true := by
  induction l with
  | nil =>
    intro st h1 h2 _
    exact ⟨rfl, h1, h2⟩
  | cons i l ih =>
    intro st h1 h2 hall
    have hz := (hall i (List.mem_cons_self i l)).1
    have hdx := (hall i (List.mem_cons_self i l)).2
    obtain ⟨hs, f1, f2, f3, f4, c1, c2, c3, c4, c5, c6, c7, c8⟩ :=
      process_keyboard_counts st i h1 hz
    have hcount : countEvt (HidEvent.keyPress Keycode.leftArrow)
        (process st i).tickEvents = 0 := by
      rw [c1]
      simp [h2]
    have hflag : (process st i).leftPressed = true := by
      rw [f1]
      simpa using hdx
    have ihr := ih (process st i) hs hflag
      (fun j hj => hall j (List.mem_cons_of_mem i hj))
    refine ⟨?_, ihr.2.1, ihr.2.2⟩
    show countEvt (HidEvent.keyPress Keycode.leftArrow)
        (process st i).tickEvents +
      runCountEvt (HidEvent.keyPress Keycode.leftArrow) (process st i) l = 0
    rw [hcount, ihr.1]

/-- Holding `dx = 0` with the latch already clear emits no further
LEFT_ARROW releases and keeps the machine in KEYBOARD with the latch
clear. -/
theorem keyboard_zero_left_aux (l : List Input) :
    ∀ st : PCCState, st.state = MState.keyboard → st.leftPressed = false →
    (∀ j ∈ l, j.z = false ∧ j.dx = 0) →
    runCountEvt (HidEvent.keyRelease Keycode.leftArrow) st l = 0 ∧
    (runTicks st l).state = MState.keyboard ∧
    (runTicks st l).leftPressed = false := by
  induction l with
  | nil =>
    intro st h1 h2 _
    exact ⟨rfl, h1, h2⟩
  | cons i l ih =>
    intro st h1 h2 hall
    have hz := (hall i (List.mem_cons_self i l)).1
    have hdx := (hall i (List.mem_cons_self i l)).2
    obtain ⟨hs, f1, f2, f3, f4, c1, c2, c3, c4, c5, c6, c7, c8⟩ :=
      process_keyboard_counts st i h1 hz
    have hcount : countEvt (HidEvent.keyRelease Keycode.leftArrow)
        (process st i).tickEvents = 0 := by
      rw [c2]
      simp [h2]
    have hflag : (process st i).leftPressed = false := by
      rw [f1]
      simp [hdx]
    have ihr := ih (process st i) hs hflag
      (fun j hj => hall j (List.mem_cons_of_mem i hj))
    refine ⟨?_, ihr.2.1, ihr.2.2⟩
    show countEvt (HidEvent.keyRelease Keycode.leftArrow)
        (process st i).tickEvents +
      runCountEvt (HidEvent.keyRelease Keycode.leftArrow) (process st i) l = 0
    rw [hcount, ihr.1]

/-- Claim C5: in KEYBOARD (with the joystick button up, which keeps the
machine there), the arrow keys are level-triggered latches on the
conditioned deltas: each tick ends with the latch flags equal to the delta
signs (`dx < 0` → LEFT, `dx > 0` → RIGHT, `dy < 0` → UP by the inverted-Y
convention, `dy > 0` → DOWN), a press of an arrow is emitted exactly when
its delta condition holds and its latch was clear, and a release exactly
when its delta condition fails and its latch was set (so `dx = 0` releases
both horizontal arrows, etc.); consequently a run of ticks holding
`dx < 0` from an unlatched state emits exactly one LEFT_ARROW press, and a
following run holding `dx = 0` emits exactly one LEFT_ARROW release. -/
theorem keyboard_arrow_latch_semantics (st : PCCState)
    (hst : st.state = MState.keyboard) :
    (∀ i : Input, i.z = false →
      ((process st i).state = MState.keyboard ∧
       (process st i).leftPressed = decide (i.dx < 0) ∧
       (process st i).rightPressed = decide (0 < i.dx) ∧
       (process st i).upPressed = decide (i.dy < 0) ∧
       (process st i).downPressed = decide (0 < i.dy)) ∧
      (countEvt (HidEvent.keyPress Keycode.leftArrow)
          (process st i).tickEvents =
        (if i.dx < 0 ∧ st.leftPressed = false then 1 else 0) ∧
       countEvt (HidEvent.keyRelease Keycode.leftArrow)
          (process st i).tickEvents =
        (if ¬i.dx < 0 ∧ st.leftPressed = true then 1 else 0) ∧
       countEvt (HidEvent.keyPress Keycode.rightArrow)
          (process st i).tickEvents =
        (if 0 < i.dx ∧ st.rightPressed = false then 1 else 0) ∧
       countEvt (HidEvent.keyRelease Keycode.rightArrow)
          (process st i).tickEvents =
        (if ¬0 < i.dx ∧ st.rightPressed = true then 1 else 0) ∧
       countEvt (HidEvent.keyPress Keycode.upArrow)
          (process st i).tickEvents =
        (if i.dy < 0 ∧ st.upPressed = false then 1 else 0) ∧
       countEvt (HidEvent.keyRelease Keycode.upArrow)
          (process st i).tickEvents =
        (if ¬i.dy < 0 ∧ st.upPressed = true then 1 else 0) ∧
       countEvt (HidEvent.keyPress Keycode.downArrow)
          (process st i).tickEvents =
        (if 0 < i.dy ∧ st.downPressed = false then 1 else 0) ∧
       countEvt (HidEvent.keyRelease Keycode.downArrow)
          (process st i).tickEvents =
        (if ¬0 < i.dy ∧ st.downPressed = true then 1 else 0))) ∧
    (∀ l : List Input, l ≠ [] →
      (∀ j ∈ l, j.z = false ∧ j.dx < 0) → st.leftPressed = false →
      runCountEvt (HidEvent.keyPress Keycode.leftArrow) st l = 1 ∧
      (runTicks st l).state = MState.keyboard ∧
      (runTicks st l).leftPressed = true ∧
      (∀ l2 : List Input, (∀ j ∈ l2, j.z = false ∧ j.dx = 0) → l2 ≠ [] →
        runCountEvt (HidEvent.keyRelease Keycode.leftArrow)
          (runTicks st l) l2 = 1)) := by
  constructor
  · intro i hz
    obtain ⟨hs, f1, f2, f3, f4, c1, c2, c3, c4, c5, c6, c7, c8⟩ :=
      process_keyboard_counts st i hst hz
    exact ⟨⟨hs, f1, f2, f3, f4⟩, c1, c2, c3, c4, c5, c6, c7, c8⟩
  · intro l hne hall hflag
    cases l with
    | nil => exact absurd rfl hne
    | cons i l1 =>
      have hz := (hall i (List.mem_cons_self i l1)).1
      have hdx := (hall i (List.mem_cons_self i l1)).2
      obtain ⟨hs, f1, f2, f3, f4, c1, c2, c3, c4, c5, c6, c7, c8⟩ :=
        process_keyboard_counts st i hst hz
      have hflag1 : (process st i).leftPressed = true := by
        rw [f1]
        simpa using hdx
      have haux := keyboard_hold_left_aux l1 (process st i) hs hflag1
        (fun j hj => hall j (List.mem_cons_of_mem i hj))
      have hcnt1 : countEvt (HidEvent.keyPress Keycode.leftArrow)
          (process st i).tickEvents = 1 := by
        rw [c1]
        simp [hdx, hflag]
      refine ⟨?_, haux.2.1, haux.2.2, ?_⟩
      · show countEvt (HidEvent.keyPress Keycode.leftArrow)
            (process st i).tickEvents +
          runCountEvt (HidEvent.keyPress Keycode.leftArrow)
            (process st i) l1 = 1
        rw [hcnt1, haux.1]
      · intro l2 hall2 hne2
        cases l2 with
        | nil => exact absurd rfl hne2
        | cons i2 l3 =>
          have hz2 := (hall2 i2 (List.mem_cons_self i2 l3)).1
          have hdx2 := (hall2 i2 (List.mem_cons_self i2 l3)).2
          obtain ⟨hs2, g1, g2, g3, g4, d1, d2, d3, d4, d5, d6, d7, d8⟩ :=
            process_keyboard_counts (runTicks (process st i) l1) i2
              haux.2.1 hz2
          have hrel1 : countEvt (HidEvent.keyRelease Keycode.leftArrow)
              (process (runTicks (process st i) l1) i2).tickEvents = 1 := by
            rw [d2]
            simp [hdx2, haux.2.2]
          have hflag2 : (process (runTicks (process st i) l1) i2).leftPressed
              = false := by
            rw [g1]
            simp [hdx2]
          have haux2 := keyboard_zero_left_aux l3
            (process (runTicks (process st i) l1) i2) hs2 hflag2
            (fun j hj => hall2 j (List.mem_cons_of_mem i2 hj))
          show countEvt (HidEvent.keyRelease Keycode.leftArrow)
              (process (runTicks (process st i) l1) i2).tickEvents +
            runCountEvt (HidEvent.keyRelease Keycode.leftArrow)
              (process (runTicks (process st i) l1) i2) l3 = 1
          rw [hrel1, haux2.1]

/-- Witness for C5: two ticks of `dx = -3` from an unlatched KEYBOARD
state emit exactly one LEFT_ARROW press, and one following tick of
`dx = 0` emits exactly one LEFT_ARROW release. -/
theorem keyboard_arrow_latch_semantics_witness :
    runCountEvt (HidEvent.keyPress Keycode.leftArrow)
      { initState 0 ⟨false, false, false, false, false, false, false, false⟩
        with state := MState.keyboard }
      [{ now := 1, dx := -3, dy := 0, z := false, dpadU := false,
         dpadD := false, dpadL := false, dpadR := false, mcTop := false,
         mcMiddle := false, mcBottom := false },
       { now := 2, dx := -3, dy := 0, z := false, dpadU := false,
         dpadD := false, dpadL := false, dpadR := false, mcTop := false,
         mcMiddle := false, mcBottom := false }] = 1 ∧
    runCountEvt (HidEvent.keyRelease Keycode.leftArrow)
      (runTicks
        { initState 0 ⟨false, false, false, false, false, false, false, false⟩
          with state := MState.keyboard }
        [{ now := 1, dx := -3, dy := 0, z := false, dpadU := false,
           dpadD := false, dpadL := false, dpadR := false, mcTop := false,
           mcMiddle := false, mcBottom := false },
         { now := 2, dx := -3, dy := 0, z := false, dpadU := false,
           dpadD := false, dpadL := false, dpadR := false, mcTop := false,
           mcMiddle := false, mcBottom := false }])
      [{ now := 3, dx := 0, dy := 0, z := false, dpadU := false,
         dpadD := false, dpadL := false, dpadR := false, mcTop := false,
         mcMiddle := false, mcBottom := false }] = 1 := by
  have h := (keyboard_arrow_latch_semantics
    { initState 0 ⟨false, false, false, false, false, false, false, false⟩
      with state := MState.keyboard } rfl).2
    [{ now := 1, dx := -3, dy := 0, z := false, dpadU := false,
       dpadD := false, dpadL := false, dpadR := false, mcTop := false,
       mcMiddle := false, mcBottom := false },
     { now := 2, dx := -3, dy := 0, z := false, dpadU := false,
       dpadD := false, dpadL := false, dpadR := false, mcTop := false,
       mcMiddle := false, mcBottom := false }]
    (by simp) (by decide) rfl
  exact ⟨h.1, h.2.2.2
    [{ now := 3, dx := 0, dy := 0, z := false, dpadU := false,
       dpadD := false, dpadL := false, dpadR := false, mcTop := false,
       mcMiddle := false, mcBottom := false }] (by decide) (by simp)⟩

end CommandCenter
